import Mathlib

/- Verification development for the OptiRoute repository: a shallow embedding
   of the GeminiService module (structured-output extraction with fallback,
   food-surplus report parsing, gateway fallback literals) and of the
   SmartShelterAllocator presentation component, together with theorems
   settling the specification's testable properties. -/

/-- JSON values as handled by the platform's JSON.parse / JSON.stringify.
Numbers are decimal values `m / 10 ^ e` (mantissa and fraction-digit count),
objects are key/value lists in insertion order. -/
inductive Json where
  | null : Json
  | bool (b : Bool) : Json
  | num (m : Int) (e : Nat) : Json
  | str (s : String) : Json
  | arr (elems : List Json) : Json
  | obj (members : List (String × Json)) : Json

/-- Decimal digit test on characters ('0' through '9'). -/
def isDigitChar (c : Char) : Bool := decide (48 ≤ c.toNat ∧ c.toNat ≤ 57)

/-- Numeric value of a decimal digit character. -/
def digitVal (c : Char) : Nat := c.toNat - 48

/-- Character for a decimal digit value below ten. -/
def digitChar : Nat → Char
  | 0 => '0' | 1 => '1' | 2 => '2' | 3 => '3' | 4 => '4'
  | 5 => '5' | 6 => '6' | 7 => '7' | 8 => '8' | _ => '9'

/-- Numeric value of a big-endian list of decimal digit characters. -/
def natFromDigits (ds : List Char) : Nat :=
  ds.foldl (fun a c => a * 10 + digitVal c) 0

/-- Big-endian decimal digit characters of a natural number ("0" for zero). -/
def natChars (n : Nat) : List Char :=
  if n = 0 then ['0'] else (Nat.digits 10 n).reverse.map digitChar

/-- Digit characters of `n`, left-padded with '0' to length at least `len`. -/
def padDigits (n : Nat) (len : Nat) : List Char :=
  List.replicate (len - (natChars n).length) '0' ++ natChars n

/-- Serialization of the magnitude `n / 10 ^ e` as an unsigned JSON numeric
literal: integer digits, and `e` fraction digits when `e > 0`. -/
def serNumCore (n : Nat) (e : Nat) : List Char :=
  if e = 0 then natChars n
  else
    (padDigits n (e + 1)).take ((padDigits n (e + 1)).length - e) ++
      '.' :: (padDigits n (e + 1)).drop ((padDigits n (e + 1)).length - e)

/-- Serialization of the number `m / 10 ^ e` as a JSON numeric literal:
optional minus sign, integer digits, and `e` fraction digits when `e > 0`. -/
def serNum (m : Int) (e : Nat) : List Char :=
  if m < 0 then '-' :: serNumCore m.natAbs e else serNumCore m.natAbs e

/-- String-body escaping used by JSON serialization: quote and backslash
are escaped with a backslash, all other characters pass through. -/
def escChars : List Char → List Char
  | [] => []
  | c :: cs =>
    if c = '"' ∨ c = '\\' then '\\' :: c :: escChars cs else c :: escChars cs

/-- Serialization of a JSON string literal. -/
def serStr (s : String) : List Char := '"' :: (escChars s.data ++ ['"'])

mutual

/-- Serialization of a JSON value (no inter-token whitespace, the shape
JSON.stringify produces). -/
def serJson : Json → List Char
  | .null => "null".data
  | .bool true => "true".data
  | .bool false => "false".data
  | .num m e => serNum m e
  | .str s => serStr s
  | .arr [] => ['[', ']']
  | .arr (v :: vs) => '[' :: (serJson v ++ serElemsRest vs ++ [']'])
  | .obj [] => ['\x7b', '\x7d']
  | .obj ((k, v) :: kvs) =>
      '\x7b' :: (serStr k ++ ':' :: serJson v ++ serMembersRest kvs ++ ['\x7d'])

/-- Serialization of the remaining elements of a JSON array (each preceded
by a comma). -/
def serElemsRest : List Json → List Char
  | [] => []
  | v :: vs => ',' :: (serJson v ++ serElemsRest vs)

/-- Serialization of the remaining members of a JSON object (each preceded
by a comma). -/
def serMembersRest : List (String × Json) → List Char
  | [] => []
  | (k, v) :: kvs => ',' :: (serStr k ++ ':' :: serJson v ++ serMembersRest kvs)

end

/-- JSON whitespace characters. -/
def isWsChar (c : Char) : Bool := c = ' ' ∨ c = '\t' ∨ c = '\n' ∨ c = '\r'

/-- Skip leading JSON whitespace. -/
def skipWs (xs : List Char) : List Char := xs.dropWhile isWsChar

/-- Consume an exact sequence of expected characters, returning the rest. -/
def expectChars : List Char → List Char → Option (List Char)
  | [], xs => some xs
  | _ :: _, [] => none
  | p :: ps, x :: xs => if x = p then expectChars ps xs else none

/-- Parse the body of a JSON string literal (after the opening quote),
returning the unescaped characters and the input after the closing quote. -/
def parseStrChars : List Char → Option (List Char × List Char)
  | [] => none
  | c :: cs =>
    if c = '"' then some ([], cs)
    else if c = '\\' then
      match cs with
      | [] => none
      | d :: ds =>
        if d = '"' ∨ d = '\\' then
          (parseStrChars ds).map fun p => (d :: p.1, p.2)
        else none
    else (parseStrChars cs).map fun p => (c :: p.1, p.2)

/-- Apply an optional JSON minus sign to a natural-number magnitude. -/
def applySign (neg : Bool) (n : Nat) : Int := if neg then -(n : Int) else n

/-- Parse the unsigned part of a JSON numeric literal: integer digits and an
optional fraction part, under an already-consumed optional sign. -/
def parseNumBody (neg : Bool) (ys : List Char) : Option (Json × List Char) :=
  let ds := ys.takeWhile isDigitChar
  if ds.isEmpty then none
  else
    let r1 := ys.dropWhile isDigitChar
    if r1.head? = some '.' then
      let fs := r1.tail.takeWhile isDigitChar
      if fs.isEmpty then none
      else
        some (.num (applySign neg (natFromDigits ds * 10 ^ fs.length + natFromDigits fs))
                fs.length,
              r1.tail.dropWhile isDigitChar)
    else some (.num (applySign neg (natFromDigits ds)) 0, r1)

/-- Parse a JSON numeric literal: optional minus sign, integer digits, and
an optional fraction part. -/
def parseNum (xs : List Char) : Option (Json × List Char) :=
  if xs.head? = some '-' then parseNumBody true xs.tail else parseNumBody false xs

mutual

/-- Fuel-bounded recursive-descent parser for one JSON value; returns the
value and the unconsumed input. -/
def parseVal : Nat → List Char → Option (Json × List Char)
  | 0, _ => none
  | fuel + 1, xs =>
    match skipWs xs with
    | [] => none
    | c :: rest =>
      if c = 'n' then (expectChars ['u', 'l', 'l'] rest).map fun r => (.null, r)
      else if c = 't' then (expectChars ['r', 'u', 'e'] rest).map fun r => (.bool true, r)
      else if c = 'f' then (expectChars ['a', 'l', 's', 'e'] rest).map fun r => (.bool false, r)
      else if c = '"' then (parseStrChars rest).map fun p => (.str (String.mk p.1), p.2)
      else if c = '[' then
        if (skipWs rest).head? = some ']' then some (.arr [], (skipWs rest).tail)
        else (parseElems fuel (skipWs rest)).map fun p => (.arr p.1, p.2)
      else if c = '\x7b' then
        if (skipWs rest).head? = some '\x7d' then some (.obj [], (skipWs rest).tail)
        else (parseMembers fuel (skipWs rest)).map fun p => (.obj p.1, p.2)
      else if c = '-' ∨ isDigitChar c then parseNum (c :: rest)
      else none

/-- Parse the comma-separated elements of a nonempty JSON array, up to and
including the closing bracket. -/
def parseElems : Nat → List Char → Option (List Json × List Char)
  | 0, _ => none
  | fuel + 1, xs =>
    match parseVal fuel xs with
    | none => none
    | some (v, r) =>
      if (skipWs r).head? = some ',' then
        (parseElems fuel (skipWs r).tail).map fun p => (v :: p.1, p.2)
      else if (skipWs r).head? = some ']' then some ([v], (skipWs r).tail)
      else none

/-- Parse the comma-separated members of a nonempty JSON object, up to and
including the closing brace. -/
def parseMembers : Nat → List Char → Option (List (String × Json) × List Char)
  | 0, _ => none
  | fuel + 1, xs =>
    if (skipWs xs).head? = some '"' then
      match parseStrChars (skipWs xs).tail with
      | none => none
      | some (k, r2) =>
        if (skipWs r2).head? = some ':' then
          match parseVal fuel (skipWs r2).tail with
          | none => none
          | some (v, r4) =>
            if (skipWs r4).head? = some ',' then
              (parseMembers fuel (skipWs r4).tail).map fun p => ((String.mk k, v) :: p.1, p.2)
            else if (skipWs r4).head? = some '\x7d' then
              some ([(String.mk k, v)], (skipWs r4).tail)
            else none
        else none
    else none

end

/-- Model of the platform's JSON.parse on a character sequence: parse one
JSON value and require only whitespace to remain; `none` models a thrown
SyntaxError. -/
def jsonParse (u : List Char) : Option Json :=
  match parseVal (u.length + 1) u with
  | some (v, rest) => if skipWs rest = [] then some v else none
  | none => none

/-- Model of the regex extraction step `text.match(/\x7b[\s\S]*\x7d/)`:
the (greedy) match spans from the first opening brace to the last closing
brace of the text; `none` when no such span exists. -/
def extractJson (s : List Char) : Option (List Char) :=
  let t := s.dropWhile (fun c => c != '\x7b')
  let u := (t.reverse.dropWhile (fun c => c != '\x7d')).reverse
  if u.isEmpty then none else some u

/-- Outcome of one invocation of the external completion service: the call
either throws (transport/auth/quota error) or resolves with raw text. -/
inductive ModelOutcome where
  | throws : ModelOutcome
  | ok (text : String) : ModelOutcome

/-- Fallback literal used by generateContent when the external call throws
and no fallbackData was supplied. -/
def defaultErrJson : Json :=
  .obj [("success", .bool false), ("error", .str "AI service temporarily unavailable")]

/-- Fallback literal used by generateContent when no JSON can be extracted
or parsed and no fallbackData was supplied. -/
def defaultDataJson (text : String) : Json :=
  .obj [("success", .bool true), ("data", .str text)]

/-- Embedding of GeminiService.generateContent, given the outcome of its
single external call. `fallbackData = none` models the `null` default.
The function is total: no failure propagates to the caller. -/
def generateContent (fallbackData : Option Json) (outcome : ModelOutcome) : Json :=
  match outcome with
  | .throws => fallbackData.getD defaultErrJson
  | .ok text =>
    match extractJson text.data with
    | none => fallbackData.getD (defaultDataJson text)
    | some u =>
      match jsonParse u with
      | some v => v
      | none => fallbackData.getD (defaultDataJson text)

/-- Case-insensitive literal match at the front of the input (the pattern is
given lowercased); returns the rest of the input on success. Models matching
a regex literal under the /i flag. -/
def ciStarts : List Char → List Char → Option (List Char)
  | [], xs => some xs
  | _ :: _, [] => none
  | p :: ps, x :: xs => if x.toLower = p then ciStarts ps xs else none

/-- Try a regex alternation of literals in order, returning the rest of the
input after the first alternative that matches. -/
def tryUnits : List (List Char) → List Char → Option (List Char)
  | [], _ => none
  | u :: us, xs =>
    match ciStarts u xs with
    | some r => some r
    | none => tryUnits us xs

/-- Model of the lazy bridge `.*?word`: scan forward for a case-insensitive
occurrence of `word`, failing at a line terminator (which `.` cannot match). -/
def seekWord (w : List Char) : List Char → Bool
  | [] => false
  | c :: rest =>
    if (ciStarts w (c :: rest)).isSome then true
    else if c = '\n' ∨ c = '\r' then false
    else seekWord w rest

/-- Whitespace characters matched by the regex class `\s`. -/
def isJsWsChar (c : Char) : Bool :=
  c = ' ' ∨ c = '\t' ∨ c = '\n' ∨ c = '\r' ∨ c = '\x0b' ∨ c = '\x0c'

/-- One food-item pattern of extractFoodItems: a regex of the shape
`(\d+)\s*(?:unit alternation).*?(?:keyword)` with a display name, a display
unit and a price per unit. -/
structure FoodPattern where
  units : List (List Char)
  word : List Char
  name : String
  unitLabel : String
  price : Nat

/-- Attempt the food-item regex at the current position: a nonempty maximal
digit run (the capture group), optional `\s*` whitespace, one unit
alternative, then a lazily reached keyword; returns the captured quantity. -/
def matchQtyAt (p : FoodPattern) (xs : List Char) : Option Nat :=
  let ds := xs.takeWhile isDigitChar
  if ds.isEmpty then none
  else
    match tryUnits p.units ((xs.dropWhile isDigitChar).dropWhile isJsWsChar) with
    | none => none
    | some r => if seekWord p.word r then some (natFromDigits ds) else none

/-- First (leftmost) match of a food-item pattern, as `report.match(regex)`
returns: the quantity captured by the earliest position where the whole
pattern matches. -/
def firstQty (p : FoodPattern) : List Char → Option Nat
  | [] => none
  | c :: rest =>
    match matchQtyAt p (c :: rest) with
    | some q => some q
    | none => firstQty p rest

/-- Quantities captured at every position where the food-item pattern
matches, in text order (so its head is the leftmost match). -/
def allQty (p : FoodPattern) : List Char → List Nat
  | [] => []
  | c :: rest =>
    match matchQtyAt p (c :: rest) with
    | some q => q :: allQty p rest
    | none => allQty p rest

/-- Pattern `/(\d+)\s*(?:kg|kilograms?).*?(?:tomato|tomatoes)/i`. -/
def tomatoPattern : FoodPattern :=
  { units := ["kg".data, "kilograms".data, "kilogram".data],
    word := "tomato".data, name := "Tomatoes", unitLabel := "kg", price := 15 }

/-- Pattern `/(\d+)\s*(?:l|liters?).*?(?:milk)/i`. -/
def milkPattern : FoodPattern :=
  { units := ["l".data, "liters".data, "liter".data],
    word := "milk".data, name := "Milk", unitLabel := "L", price := 40 }

/-- Pattern `/(\d+)\s*(?:kg|kilograms?).*?(?:potato|potatoes)/i`. -/
def potatoPattern : FoodPattern :=
  { units := ["kg".data, "kilograms".data, "kilogram".data],
    word := "potato".data, name := "Potatoes", unitLabel := "kg", price := 20 }

/-- Pattern `/(\d+)\s*(?:kg|kilograms?).*?(?:rice)/i`. -/
def ricePattern : FoodPattern :=
  { units := ["kg".data, "kilograms".data, "kilogram".data],
    word := "rice".data, name := "Rice", unitLabel := "kg", price := 25 }

/-- The four patterns of extractFoodItems, in source order. -/
def foodPatterns : List FoodPattern :=
  [tomatoPattern, milkPattern, potatoPattern, ricePattern]

/-- Accumulated result of extractFoodItems. -/
structure FoodExtract where
  items : List String
  totalQuantity : Nat
  totalValue : Nat
deriving DecidableEq

/-- One iteration of the `patterns.forEach` loop of extractFoodItems: if the
pattern has a (first) match, record the item line and add the quantity and
its value. -/
def foodStep (report : List Char) (acc : FoodExtract) (p : FoodPattern) : FoodExtract :=
  match firstQty p report with
  | some q =>
    { items := acc.items ++ [p.name ++ ": " ++ toString q ++ p.unitLabel],
      totalQuantity := acc.totalQuantity + q,
      totalValue := acc.totalValue + q * p.price }
  | none => acc

/-- Embedding of extractFoodItems from generateWastePlan. -/
def extractFoodItems (report : String) : FoodExtract :=
  foodPatterns.foldl (foodStep report.data) ⟨[], 0, 0⟩

/-- Contribution of one pattern to totalValue: first-match quantity times
price, zero when the pattern does not match. -/
def valueContrib (p : FoodPattern) (report : String) : Nat :=
  match firstQty p report.data with
  | some q => q * p.price
  | none => 0

/-- Contribution of one pattern to totalQuantity. -/
def qtyContrib (p : FoodPattern) (report : String) : Nat :=
  match firstQty p report.data with
  | some q => q
  | none => 0

/-- JavaScript `x || d` on numbers whose only falsy value here is 0. -/
def natOr (x d : Nat) : Nat := if x = 0 then d else x

/-- JavaScript `x || d` on an optional string (undefined and "" are falsy). -/
def strOr (x : Option String) (d : String) : String :=
  match x with
  | none => d
  | some s => if s = "" then d else s

/-- `Math.floor(totalQuantity / 3) || 50` from generateWastePlan. -/
def estimatedPeopleOf (tq : Nat) : Nat := natOr (tq / 3) 50

/-- Decimal rendering of `q * 2.5` as JavaScript prints the number. -/
def halfMulStr (q : Nat) : String :=
  if q * 25 % 10 = 0 then toString (q * 25 / 10)
  else toString (q * 25 / 10) ++ "." ++ toString (q * 25 % 10)

/-- JSON number `q * 2.5`. -/
def jnumHalfMul (q : Nat) : Json :=
  if q * 25 % 10 = 0 then .num (q * 25 / 10 : Nat) 0 else .num (q * 25 : Nat) 1

/-- The `estimated_impact` object of generateWastePlan's fallback literal. -/
def wastePlanImpact (raw_report : String) : Json :=
  let fe := extractFoodItems raw_report
  .obj [("people_served", .num (estimatedPeopleOf fe.totalQuantity : Nat) 0),
        ("food_saved_kg", .num (natOr fe.totalQuantity 200 : Nat) 0),
        ("economic_value_rupees", .num (natOr fe.totalValue 5000 : Nat) 0),
        ("emissions_saved_kg", jnumHalfMul (natOr fe.totalQuantity 200)),
        ("water_saved_liters", .num (natOr fe.totalQuantity 200 * 1000 : Nat) 0)]

/-- The hunger-relief branch of the allocation-strategy template. -/
def hungerReliefBlock : String :=
  "1. 🚨 URGENT HUNGER RELIEF (70% of surplus):\n" ++
  "   • Target: Orphanages, emergency shelters, food banks\n" ++
  "   • Priority: Highly perishable items first\n" ++
  "   • Timeline: Within 6 hours\n" ++
  "\n" ++
  "2. 🏘️ COMMUNITY SUPPORT (30% of surplus):\n" ++
  "   • Target: Community centers, schools, elderly care\n" ++
  "   • Timeline: Within 24 hours"

/-- The balanced branch of the allocation-strategy template. -/
def balancedBlock : String :=
  "1. 🔄 BALANCED MULTI-OBJECTIVE APPROACH:\n" ++
  "   • 40% - Urgent hunger relief (orphanages, shelters)\n" ++
  "   • 30% - Farmer economic support\n" ++
  "   • 20% - Community centers and schools\n" ++
  "   • 10% - Environmental sustainability programs"

/-- The `allocation_plan` template string of generateWastePlan's fallback
(`new Date().toLocaleString()` is the `nowLocale` parameter). -/
def wastePlanText (raw_report : String) (priority_focus : Option String)
    (nowLocale : String) : String :=
  let fe := extractFoodItems raw_report
  let estimatedPeople := estimatedPeopleOf fe.totalQuantity
  "🤖 HungerGuard AI Food Distribution Plan\n" ++
  "=========================" ++ "=========================\n" ++
  "Priority Focus: " ++ strOr priority_focus "Balanced Approach" ++ "\n" ++
  "Report Analysis Date: " ++ nowLocale ++ "\n" ++
  "\n" ++
  "📦 IDENTIFIED FOOD SURPLUS:\n" ++
  (if fe.items.length > 0
   then String.intercalate "\n" (fe.items.map fun item => "   • " ++ item)
   else "   • Mixed Food Items: 200kg") ++ "\n" ++
  "\n" ++
  "🎯 ALLOCATION STRATEGY:\n" ++
  (if priority_focus = some "hunger_relief" then hungerReliefBlock else balancedBlock) ++ "\n" ++
  "\n" ++
  "🚛 LOGISTICS & DISTRIBUTION:\n" ++
  "   • Refrigerated vehicles for perishable items\n" ++
  "   • Standard trucks for non-perishable items\n" ++
  "   • Route optimization to minimize travel time\n" ++
  "   • Real-time tracking and delivery confirmations\n" ++
  "\n" ++
  "📊 ESTIMATED IMPACT:\n" ++
  "   • People served: ~" ++ toString estimatedPeople ++ " individuals\n" ++
  "   • Food waste prevented: " ++ toString (natOr fe.totalQuantity 200) ++ "kg\n" ++
  "   • Economic value: ₹" ++ toString (natOr fe.totalValue 5000) ++ "\n" ++
  "   • CO2 emissions avoided: " ++ halfMulStr (natOr fe.totalQuantity 200) ++ "kg\n" ++
  "   • Water saved: ~" ++ toString (natOr fe.totalQuantity 200 * 1000) ++ " liters"

/-- The `human_summary` string of generateWastePlan's fallback. -/
def wastePlanSummary (raw_report : String) (priority_focus : Option String) : String :=
  let fe := extractFoodItems raw_report
  "Smart allocation plan created for " ++ toString (natOr fe.totalQuantity 200) ++
  "kg food surplus, targeting " ++ toString (estimatedPeopleOf fe.totalQuantity) ++
  " people with ₹" ++ toString (natOr fe.totalValue 5000) ++
  " economic impact. Prioritizes " ++ strOr priority_focus "balanced approach" ++
  " while ensuring efficient distribution and minimal waste."

/-- The fallbackData object built by generateWastePlan before its gateway
call. -/
def wastePlanFallback (raw_report : String) (priority_focus : Option String)
    (nowLocale : String) : Json :=
  .obj [("allocation_plan", .str (wastePlanText raw_report priority_focus nowLocale)),
        ("human_summary", .str (wastePlanSummary raw_report priority_focus)),
        ("estimated_impact", wastePlanImpact raw_report)]

/-- The `estimated_impact` literal of the SmartShelterAllocator page. -/
structure ShelterImpact where
  people_served : Nat
  beds_allocated : Nat
  economic_value_rupees : Nat
  emissions_saved_kg : Nat
deriving DecidableEq

/-- The shape of the static shelter plan literal of the page. -/
structure ShelterPlan where
  allocation_plan : String
  human_summary : String
  estimated_impact : ShelterImpact
deriving DecidableEq

/-- The `staticShelterPlan` literal of SmartShelterAllocator.jsx. -/
def staticShelterPlan : ShelterPlan :=
  { allocation_plan := "Shelter beds allocated: 50 to Center A, 30 to Center B.",
    human_summary := "Shelter allocation completed.",
    estimated_impact :=
      { people_served := 80, beds_allocated := 80,
        economic_value_rupees := 12000, emissions_saved_kg := 20 } }

/-- Embedding of the `handleGenerateShelterPlan` click handler: it sets the
`generatedShelterPlan` state (initially `none`, i.e. null) to the static
plan literal regardless of the current state. -/
def handleGenerateShelterPlan : Option ShelterPlan → Option ShelterPlan :=
  fun _ => some staticShelterPlan

/-- Rendered content of the SmartShelterAllocator page for a given state:
nothing beyond the button when the state is null, otherwise the headings and
field texts in document order. -/
def renderShelterAllocator : Option ShelterPlan → List String
  | none => []
  | some p =>
    ["Generated Shelter Plan", p.allocation_plan, p.human_summary, "Estimated Impact",
     "People Served: " ++ toString p.estimated_impact.people_served,
     "Beds Allocated: " ++ toString p.estimated_impact.beds_allocated,
     "Economic Value (Rupees): " ++ toString p.estimated_impact.economic_value_rupees,
     "Emissions Saved (kg): " ++ toString p.estimated_impact.emissions_saved_kg]

/-- Key list of a JSON object (empty for non-objects), in insertion order. -/
def objKeys : Json → List String
  | .obj kvs => kvs.map Prod.fst
  | _ => []

/-- The three hospital records of getHospitals' fallbackData literal. -/
def getHospitalsFallbackList : List Json :=
  [.obj [("id", .num 1 0), ("name", .str "Apollo Hospital Chennai"),
         ("location", .str "Greams Road, Chennai"), ("total_beds", .num 650 0),
         ("available_beds", .num 45 0),
         ("specialties", .arr [.str "Cardiology", .str "Neurology", .str "Oncology",
                               .str "Emergency"]),
         ("contact_number", .str "+91-44-2829-3333"), ("emergency_services", .bool true),
         ("rating", .num 45 1)],
   .obj [("id", .num 2 0), ("name", .str "Fortis Malar Hospital"),
         ("location", .str "Adyar, Chennai"), ("total_beds", .num 400 0),
         ("available_beds", .num 32 0),
         ("specialties", .arr [.str "Orthopedics", .str "Gastroenterology",
                               .str "Pediatrics"]),
         ("contact_number", .str "+91-44-4289-4289"), ("emergency_services", .bool true),
         ("rating", .num 42 1)],
   .obj [("id", .num 3 0), ("name", .str "MIOT International"),
         ("location", .str "Manapakkam, Chennai"), ("total_beds", .num 500 0),
         ("available_beds", .num 28 0),
         ("specialties", .arr [.str "Multi-organ transplant", .str "Cardiothoracic Surgery",
                               .str "Neurosurgery"]),
         ("contact_number", .str "+91-44-4200-2500"), ("emergency_services", .bool true),
         ("rating", .num 44 1)]]

/-- The fallbackData literal of getHospitals. -/
def getHospitalsFallback : Json := .obj [("hospitals", .arr getHospitalsFallbackList)]

/-- The fallbackData literal of getDoctors. -/
def getDoctorsFallback : Json :=
  .obj [("doctors", .arr
    [.obj [("id", .num 1 0), ("name", .str "Dr. Rajesh Kumar"),
           ("specialty", .str "Cardiology"), ("hospital_id", .num 1 0),
           ("years_experience", .num 15 0), ("availability_status", .str "available"),
           ("consultations_today", .num 12 0), ("rating", .num 46 1)],
     .obj [("id", .num 2 0), ("name", .str "Dr. Priya Sharma"),
           ("specialty", .str "Neurology"), ("hospital_id", .num 1 0),
           ("years_experience", .num 18 0), ("availability_status", .str "busy"),
           ("consultations_today", .num 8 0), ("rating", .num 48 1)],
     .obj [("id", .num 3 0), ("name", .str "Dr. Suresh Reddy"),
           ("specialty", .str "Emergency Medicine"), ("hospital_id", .num 2 0),
           ("years_experience", .num 10 0), ("availability_status", .str "available"),
           ("consultations_today", .num 15 0), ("rating", .num 43 1)]])]

/-- The fallbackData literal of getPatients. -/
def getPatientsFallback : Json :=
  .obj [("patients", .arr
    [.obj [("id", .num 1 0), ("name", .str "Ramesh Kumar"), ("age", .num 45 0),
           ("condition", .str "Heart Attack"), ("severity", .str "critical"),
           ("admission_date", .str "2024-01-15"), ("doctor_id", .num 1 0),
           ("status", .str "admitted")],
     .obj [("id", .num 2 0), ("name", .str "Lakshmi Devi"), ("age", .num 32 0),
           ("condition", .str "Stroke"), ("severity", .str "serious"),
           ("admission_date", .str "2024-01-16"), ("doctor_id", .num 2 0),
           ("status", .str "stable")],
     .obj [("id", .num 3 0), ("name", .str "Arjun Patel"), ("age", .num 28 0),
           ("condition", .str "Accident Injury"), ("severity", .str "moderate"),
           ("admission_date", .str "2024-01-16"), ("doctor_id", .num 3 0),
           ("status", .str "recovering")]])]

/-- The fallbackData literal of findHospitalIntelligent. -/
def findHospitalIntelligentFallback : Json :=
  .obj [("recommended_hospital",
         .obj [("id", .num 1 0), ("name", .str "Apollo Hospital Chennai"),
               ("location", .str "Greams Road, Chennai"),
               ("specialties", .arr [.str "Cardiology", .str "Emergency"]),
               ("available_beds", .num 45 0), ("estimated_time", .str "15 minutes"),
               ("rating", .num 45 1)]),
        ("reasoning", .str ("Apollo Hospital is recommended due to its excellent cardiology " ++
          "department and proximity to your location. They have emergency services available " ++
          "and experienced specialists on duty.")),
        ("alternatives", .arr
          [.obj [("name", .str "Fortis Malar Hospital"), ("distance", .str "8 km"),
                 ("specialties", .arr [.str "Emergency", .str "General Medicine"])]]),
        ("cost_estimate", .str "₹15,000 - ₹25,000"),
        ("emergency_contact", .str "+91-44-2829-3333")]

/-- The fallbackData literal of getDashboardStats. -/
def getDashboardStatsFallback : Json :=
  .obj [("total_hospitals", .num 25 0), ("total_doctors", .num 450 0),
        ("total_patients", .num 1200 0), ("emergencies_today", .num 35 0),
        ("average_waiting_time", .num 18 0), ("bed_occupancy_rate", .num 78 0),
        ("critical_patients", .num 42 0), ("ambulances_active", .num 12 0)]

/-- The fallbackData literal of getOccupancyTrends. -/
def getOccupancyTrendsFallback : Json :=
  .obj [("days", .arr [.str "Mon", .str "Tue", .str "Wed", .str "Thu", .str "Fri",
                       .str "Sat", .str "Sun"]),
        ("occupancy_rates", .arr [.num 72 0, .num 75 0, .num 80 0, .num 85 0, .num 78 0,
                                  .num 65 0, .num 70 0]),
        ("emergency_admissions", .arr [.num 15 0, .num 18 0, .num 22 0, .num 25 0,
                                       .num 20 0, .num 12 0, .num 16 0]),
        ("discharges", .arr [.num 20 0, .num 25 0, .num 18 0, .num 30 0, .num 22 0,
                             .num 28 0, .num 24 0])]

/-- The fallbackData literal of getSpecialtyDistribution. -/
def getSpecialtyDistributionFallback : Json :=
  .obj [("labels", .arr [.str "Cardiology", .str "Neurology", .str "Orthopedics",
                         .str "Emergency", .str "Pediatrics", .str "General Medicine"]),
        ("data", .arr [.num 85 0, .num 65 0, .num 75 0, .num 95 0, .num 55 0, .num 120 0])]

/-- The fallbackData literal of allocateShelter. -/
def allocateShelterFallback : Json :=
  .obj [("allocated_shelter",
         .obj [("shelter_id", .str "SH001"), ("name", .str "New Hope Community Shelter"),
               ("location", .str "Anna Nagar, Chennai"), ("capacity", .num 50 0),
               ("available_slots", .num 5 0),
               ("facilities", .arr [.str "Kitchen", .str "School", .str "Medical Care"]),
               ("monthly_rent", .num 2500 0)]),
        ("allocation_score", .num 87 2),
        ("reasoning", .str ("High compatibility based on family size, location preference, " ++
          "and available facilities. The shelter has good schools nearby for children and " ++
          "medical facilities.")),
        ("wait_time", .str "2-3 days"),
        ("required_documents", .arr [.str "Aadhar Card", .str "Income Certificate",
                                     .str "Family Photos", .str "Bank Statement"])]

/-- The fallbackData literal of getShelterStats. -/
def getShelterStatsFallback : Json :=
  .obj [("total_shelters", .num 15 0), ("total_capacity", .num 750 0),
        ("occupied_slots", .num 580 0), ("waiting_list", .num 95 0),
        ("allocation_success_rate", .num 78 0), ("average_wait_time", .num 42 1)]

/-- Location input of findNearbyHospitals: latitude and longitude as decimal
numbers (mantissa and fraction-digit count) and the severity level, whose
destructuring default is 1. -/
structure LocationData where
  latitudeM : Int
  latitudeE : Nat
  longitudeM : Int
  longitudeE : Nat
  severity : Nat

/-- The userLocation literal assigned by findNearbyHospitals' reverse-geocoding
catch branch. -/
def geoUnknownLocation : Json :=
  .obj [("area_name", .str "Unknown Area"), ("district", .str "Chennai"),
        ("city", .str "Chennai"), ("landmarks", .arr [.str "Unknown"]),
        ("postal_code", .str "600000")]

/-- The reverse-geocoding phase of findNearbyHospitals (its first external
call): on success it extracts and parses a JSON location, on a thrown error
or parse failure it uses the unknown-location literal, and when no JSON span
is found the variable stays undefined (`none`). The value only shapes the
second prompt's text. -/
def nearbyGeoPhase (outcome : ModelOutcome) : Option Json :=
  match outcome with
  | .throws => some geoUnknownLocation
  | .ok text =>
    match extractJson text.data with
    | none => none
    | some u =>
      match jsonParse u with
      | some v => some v
      | none => some geoUnknownLocation

/-- The six hospital records of findNearbyHospitals' fallbackData literal. -/
def findNearbyHospitalsFallbackList : List Json :=
  [.obj [("id", .num 1 0), ("name", .str "Apollo Hospital Chennai"),
         ("location", .str "Greams Road, Chennai"),
         ("address", .str "21, Greams Lane, Off Greams Road, Chennai - 600006"),
         ("distance_km", .num 25 1), ("latitude", .num 130569 4), ("longitude", .num 802452 4),
         ("total_beds", .num 650 0), ("available_beds", .num 45 0),
         ("available_icu_beds", .num 8 0), ("occupancy_rate", .str "93%"),
         ("status", .str "Available"),
         ("specialties", .arr [.str "Cardiology", .str "Neurology", .str "Oncology",
                               .str "Emergency Medicine", .str "Pediatrics"]),
         ("emergency_services", .bool true), ("contact_number", .str "+91-44-2829-3333"),
         ("rating", .num 45 1), ("estimated_wait_time", .str "15 minutes"),
         ("ambulance_available", .bool true), ("has_parking", .bool true),
         ("accepts_insurance", .bool true)],
   .obj [("id", .num 2 0), ("name", .str "Fortis Malar Hospital"),
         ("location", .str "Adyar, Chennai"),
         ("address", .str "52, 1st Main Road, Gandhi Nagar, Adyar, Chennai - 600020"),
         ("distance_km", .num 38 1), ("latitude", .num 130067 4), ("longitude", .num 802206 4),
         ("total_beds", .num 400 0), ("available_beds", .num 32 0),
         ("available_icu_beds", .num 5 0), ("occupancy_rate", .str "92%"),
         ("status", .str "Available"),
         ("specialties", .arr [.str "Orthopedics", .str "Gastroenterology", .str "Pediatrics",
                               .str "Emergency Medicine"]),
         ("emergency_services", .bool true), ("contact_number", .str "+91-44-4289-4289"),
         ("rating", .num 42 1), ("estimated_wait_time", .str "20 minutes"),
         ("ambulance_available", .bool true), ("has_parking", .bool true),
         ("accepts_insurance", .bool true)],
   .obj [("id", .num 3 0), ("name", .str "MIOT International"),
         ("location", .str "Manapakkam, Chennai"),
         ("address", .str "4/112, Mount Poonamalle Road, Manapakkam, Chennai - 600089"),
         ("distance_km", .num 52 1), ("latitude", .num 130244 4), ("longitude", .num 801700 4),
         ("total_beds", .num 500 0), ("available_beds", .num 28 0),
         ("available_icu_beds", .num 6 0), ("occupancy_rate", .str "94%"),
         ("status", .str "Limited"),
         ("specialties", .arr [.str "Multi-organ transplant", .str "Cardiothoracic Surgery",
                               .str "Neurosurgery", .str "Emergency"]),
         ("emergency_services", .bool true), ("contact_number", .str "+91-44-4200-2500"),
         ("rating", .num 44 1), ("estimated_wait_time", .str "25 minutes"),
         ("ambulance_available", .bool true), ("has_parking", .bool true),
         ("accepts_insurance", .bool true)],
   .obj [("id", .num 4 0), ("name", .str "Gleneagles Global Health City"),
         ("location", .str "Perumbakkam, Chennai"),
         ("address", .str "439, Cheran Nagar, Perumbakkam, Chennai - 600100"),
         ("distance_km", .num 67 1), ("latitude", .num 129010 4), ("longitude", .num 802279 4),
         ("total_beds", .num 750 0), ("available_beds", .num 55 0),
         ("available_icu_beds", .num 12 0), ("occupancy_rate", .str "93%"),
         ("status", .str "Available"),
         ("specialties", .arr [.str "Cardiac Sciences", .str "Neurosciences", .str "Transplant",
                               .str "Emergency", .str "Critical Care"]),
         ("emergency_services", .bool true), ("contact_number", .str "+91-44-4444-1234"),
         ("rating", .num 46 1), ("estimated_wait_time", .str "18 minutes"),
         ("ambulance_available", .bool true), ("has_parking", .bool true),
         ("accepts_insurance", .bool true)],
   .obj [("id", .num 5 0), ("name", .str "Sri Ramachandra Medical Centre"),
         ("location", .str "Porur, Chennai"),
         ("address", .str "No.1, Ramachandra Nagar, Porur, Chennai - 600116"),
         ("distance_km", .num 83 1), ("latitude", .num 130358 4), ("longitude", .num 801557 4),
         ("total_beds", .num 580 0), ("available_beds", .num 38 0),
         ("available_icu_beds", .num 7 0), ("occupancy_rate", .str "93%"),
         ("status", .str "Available"),
         ("specialties", .arr [.str "General Medicine", .str "Surgery", .str "Pediatrics",
                               .str "Emergency Medicine", .str "Orthopedics"]),
         ("emergency_services", .bool true), ("contact_number", .str "+91-44-4928-1000"),
         ("rating", .num 41 1), ("estimated_wait_time", .str "30 minutes"),
         ("ambulance_available", .bool true), ("has_parking", .bool true),
         ("accepts_insurance", .bool true)],
   .obj [("id", .num 6 0), ("name", .str "Government General Hospital"),
         ("location", .str "Park Town, Chennai"),
         ("address", .str "EVR Periyar Salai, Park Town, Chennai - 600003"),
         ("distance_km", .num 41 1), ("latitude", .num 130878 4), ("longitude", .num 802785 4),
         ("total_beds", .num 1200 0), ("available_beds", .num 85 0),
         ("available_icu_beds", .num 15 0), ("occupancy_rate", .str "93%"),
         ("status", .str "Available"),
         ("specialties", .arr [.str "General Medicine", .str "Surgery",
                               .str "Emergency Medicine", .str "Trauma Care",
                               .str "Pediatrics"]),
         ("emergency_services", .bool true), ("contact_number", .str "+91-44-2819-2000"),
         ("rating", .num 38 1), ("estimated_wait_time", .str "45 minutes"),
         ("ambulance_available", .bool true), ("has_parking", .bool false),
         ("accepts_insurance", .bool true)]]

/-- The fallbackData literal of findNearbyHospitals; `now` stands for
`new Date().toISOString()`. -/
def findNearbyHospitalsFallback (loc : LocationData) (now : String) : Json :=
  .obj [("hospitals", .arr findNearbyHospitalsFallbackList),
        ("user_location",
         .obj [("latitude", .num loc.latitudeM loc.latitudeE),
               ("longitude", .num loc.longitudeM loc.longitudeE),
               ("nearest_landmark", .str "Chennai Central Area")]),
        ("emergency_level",
         .str (if loc.severity ≥ 4 then "Critical"
               else if loc.severity ≥ 3 then "High" else "Normal")),
        ("response_time", .str now)]

/-- generateContent threaded through a call-indexed oracle for the external
service: it consumes exactly the `i`-th outcome and returns the next unused
call index. -/
def generateContentRun (fallbackData : Option Json) (svc : Nat → ModelOutcome)
    (i : Nat) : Json × Nat :=
  (generateContent fallbackData (svc i), i + 1)

/-- getHospitals: one generateContent call with its fallback literal. -/
def getHospitalsRun (svc : Nat → ModelOutcome) (i : Nat) : Json × Nat :=
  generateContentRun (some getHospitalsFallback) svc i

/-- getDoctors: one generateContent call with its fallback literal. -/
def getDoctorsRun (svc : Nat → ModelOutcome) (i : Nat) : Json × Nat :=
  generateContentRun (some getDoctorsFallback) svc i

/-- getPatients: one generateContent call with its fallback literal. -/
def getPatientsRun (svc : Nat → ModelOutcome) (i : Nat) : Json × Nat :=
  generateContentRun (some getPatientsFallback) svc i

/-- findHospitalIntelligent: one generateContent call with its fallback
literal. -/
def findHospitalIntelligentRun (svc : Nat → ModelOutcome) (i : Nat) : Json × Nat :=
  generateContentRun (some findHospitalIntelligentFallback) svc i

/-- getDashboardStats: one generateContent call with its fallback literal. -/
def getDashboardStatsRun (svc : Nat → ModelOutcome) (i : Nat) : Json × Nat :=
  generateContentRun (some getDashboardStatsFallback) svc i

/-- getOccupancyTrends: one generateContent call with its fallback literal. -/
def getOccupancyTrendsRun (svc : Nat → ModelOutcome) (i : Nat) : Json × Nat :=
  generateContentRun (some getOccupancyTrendsFallback) svc i

/-- getSpecialtyDistribution: one generateContent call with its fallback
literal. -/
def getSpecialtyDistributionRun (svc : Nat → ModelOutcome) (i : Nat) : Json × Nat :=
  generateContentRun (some getSpecialtyDistributionFallback) svc i

/-- allocateShelter: one generateContent call with its fallback literal. -/
def allocateShelterRun (svc : Nat → ModelOutcome) (i : Nat) : Json × Nat :=
  generateContentRun (some allocateShelterFallback) svc i

/-- getShelterStats: one generateContent call with its fallback literal. -/
def getShelterStatsRun (svc : Nat → ModelOutcome) (i : Nat) : Json × Nat :=
  generateContentRun (some getShelterStatsFallback) svc i

/-- generateWastePlan: builds its fallback from the surplus report, then
makes one generateContent call. -/
def generateWastePlanRun (raw_report : String) (priority_focus : Option String)
    (nowLocale : String) (svc : Nat → ModelOutcome) (i : Nat) : Json × Nat :=
  generateContentRun (some (wastePlanFallback raw_report priority_focus nowLocale)) svc i

/-- findNearbyHospitals: a direct model call for reverse geocoding (whose
value only shapes the second prompt's text), then a generateContent call
with the hospital-list fallback literal — two external calls in total. -/
def findNearbyHospitalsRun (loc : LocationData) (now : String)
    (svc : Nat → ModelOutcome) (i : Nat) : Json × Nat :=
  let _userLocation := nearbyGeoPhase (svc i)
  (generateContent (some (findNearbyHospitalsFallback loc now)) (svc (i + 1)), i + 2)

/-- Per-record key schema documented by getHospitals' system prompt
("each having: id, name, location, total_beds, available_beds, specialties,
contact_number, emergency_services, rating"). -/
def getHospitalsPromptKeys : List String :=
  ["id", "name", "location", "total_beds", "available_beds", "specialties",
   "contact_number", "emergency_services", "rating"]

/-- Top-level key schema documented by findHospitalIntelligent's system
prompt ("Return JSON with: recommended_hospital (object with hospital
details), reasoning (string), alternatives (array of other options),
estimated_time, cost_estimate"). -/
def findHospitalIntelligentPromptKeys : List String :=
  ["recommended_hospital", "reasoning", "alternatives", "estimated_time", "cost_estimate"]

/-- Top-level key schema documented by allocateShelter's system prompt
("Return JSON with: allocated_shelter (object), allocation_score, reasoning,
wait_time, required_documents"). -/
def allocateShelterPromptKeys : List String :=
  ["allocated_shelter", "allocation_score", "reasoning", "wait_time", "required_documents"]

/-- Index of the first occurrence of a character in a list. -/
def firstIdx (c : Char) : List Char → Option Nat
  | [] => none
  | x :: xs => if x = c then some 0 else (firstIdx c xs).map (· + 1)

/-- Index of the last occurrence of a character in a list. -/
def lastIdx (c : Char) : List Char → Option Nat
  | [] => none
  | x :: xs =>
    match lastIdx c xs with
    | some j => some (j + 1)
    | none => if x = c then some 0 else none

/-- The extraction step as the specification words it: the substring spanning
from the index of the first opening brace to the index of the last closing
brace, provided the former precedes the latter; no span otherwise. -/
def extractJsonIdx (s : List Char) : Option (List Char) :=
  match firstIdx '\x7b' s, lastIdx '\x7d' s with
  | some i, some j => if i < j then some ((s.drop i).take (j + 1 - i)) else none
  | _, _ => none

/-- The item line contributed by one pattern (empty when it has no match). -/
def itemContrib (p : FoodPattern) (report : String) : List String :=
  match firstQty p report.data with
  | some q => [p.name ++ ": " ++ toString q ++ p.unitLabel]
  | none => []

/-- The extraction step as the specification words it: of all the positions
where a pattern matches, only the head of the match list contributes. -/
def foodStepHead (report : List Char) (acc : FoodExtract) (p : FoodPattern) : FoodExtract :=
  match (allQty p report).head? with
  | some q =>
    { items := acc.items ++ [p.name ++ ": " ++ toString q ++ p.unitLabel],
      totalQuantity := acc.totalQuantity + q,
      totalValue := acc.totalValue + q * p.price }
  | none => acc

/-- extractFoodItems as the specification words it (first-of-all-matches). -/
def extractFoodItemsHeadOnly (report : String) : FoodExtract :=
  foodPatterns.foldl (foodStepHead report.data) ⟨[], 0, 0⟩

/-- Does the needle occur at the front of the haystack? -/
def subAt : List Char → List Char → Bool
  | [], _ => true
  | _ :: _, [] => false
  | n :: ns, h :: hs => n = h && subAt ns hs

/-- Does the needle occur anywhere in the haystack (substring containment)? -/
def hasSub (needle : List Char) : List Char → Bool
  | [] => needle.isEmpty
  | h :: hs => subAt needle (h :: hs) || hasSub needle hs

/-- Member lookup in a key/value list (first hit, as property access on a
parsed JSON object). -/
def lookupPairs : List (String × Json) → String → Option Json
  | [], _ => none
  | (k', v) :: rest, k => if k' = k then some v else lookupPairs rest k

/-- Property access on a JSON object. -/
def lookupJ (j : Json) (k : String) : Option Json :=
  match j with
  | .obj kvs => lookupPairs kvs k
  | _ => none

/-- No brace characters occur in the list (the surrounding text of an
embedded JSON object). -/
def braceFree (l : List Char) : Bool :=
  l.all fun c => c != '\x7b' && c != '\x7d'

/-- Characters that may legally follow a serialized JSON value inside a
larger serialized document (or its end). -/
def Delim : List Char → Prop
  | [] => True
  | c :: _ => c = ',' ∨ c = ']' ∨ c = '\x7d'

/-- The head of the list, if any, fails the predicate. -/
def HeadNot (p : Char → Bool) (R : List Char) : Prop :=
  ∀ c, R.head? = some c → p c = false

mutual

/-- Fuel sufficient for parseVal to parse the serialization of a value. -/
def needJ : Json → Nat
  | .null => 1
  | .bool _ => 1
  | .num _ _ => 1
  | .str _ => 1
  | .arr [] => 1
  | .arr (v :: vs) => needElems v vs + 1
  | .obj [] => 1
  | .obj ((_, v) :: kvs) => needMembers v kvs + 1
termination_by v => sizeOf v

/-- Fuel sufficient for parseElems on a nonempty element list. -/
def needElems : Json → List Json → Nat
  | v, [] => needJ v + 1
  | v, w :: ws => max (needJ v) (needElems w ws) + 1
termination_by v vs => sizeOf v + sizeOf vs

/-- Fuel sufficient for parseMembers on a nonempty member list. -/
def needMembers : Json → List (String × Json) → Nat
  | v, [] => needJ v + 1
  | v, (_, w) :: kvs => max (needJ v) (needMembers w kvs) + 1
termination_by v kvs => sizeOf v + sizeOf kvs

end

/-- Claim C1: for every gateway call that supplies a fallback object, each of
the three failure modes — the external call throws, the response contains no
JSON-like span, or the extracted span fails to parse — makes generateContent
return exactly that fallback object; being a total function, it never
propagates an exception. -/
theorem claim_C1 (fb : Json) (t : String) (u : List Char) :
    generateContent (some fb) .throws = fb ∧
    (extractJson t.data = none → generateContent (some fb) (.ok t) = fb) ∧
    (extractJson t.data = some u → jsonParse u = none →
      generateContent (some fb) (.ok t) = fb) := by
  refine ⟨rfl, ?_, ?_⟩
  · intro h
    simp [generateContent, h]
  · intro h1 h2
    simp [generateContent, h1, h2]

/-- Witness for C1: the three failure modes at concrete inputs, with the
getHospitals fallback literal. -/
theorem claim_C1_witness :
    generateContent (some getHospitalsFallback) .throws = getHospitalsFallback ∧
    (extractJson ("The service is busy, please retry later.").data = none ∧
      generateContent (some getHospitalsFallback)
        (.ok "The service is busy, please retry later.") = getHospitalsFallback) ∧
    (extractJson ("Output: \x7bnot json\x7d.").data = some ("\x7bnot json\x7d").data ∧
      jsonParse ("\x7bnot json\x7d").data = none ∧
      generateContent (some getHospitalsFallback)
        (.ok "Output: \x7bnot json\x7d.") = getHospitalsFallback) := by
  refine ⟨(claim_C1 getHospitalsFallback "" []).1, ⟨by decide, ?_⟩, ⟨by decide, by rfl, ?_⟩⟩
  · exact (claim_C1 getHospitalsFallback "The service is busy, please retry later." []).2.1
      (by decide)
  · exact (claim_C1 getHospitalsFallback "Output: \x7bnot json\x7d."
      ("\x7bnot json\x7d").data).2.2 (by decide) (by rfl)

/-- Claim C9: with no fallback record (fallbackData null), generateContent
does not return a predefined fallback: the no-JSON and malformed-JSON modes
yield a success-flagged object carrying the raw text, and a thrown external
call yields a failure-flagged object with the static error message. -/
theorem claim_C9 (t : String) (u : List Char) :
    generateContent none .throws =
      .obj [("success", .bool false), ("error", .str "AI service temporarily unavailable")] ∧
    (extractJson t.data = none → generateContent none (.ok t) =
      .obj [("success", .bool true), ("data", .str t)]) ∧
    (extractJson t.data = some u → jsonParse u = none → generateContent none (.ok t) =
      .obj [("success", .bool true), ("data", .str t)]) := by
  refine ⟨rfl, ?_, ?_⟩
  · intro h
    simp [generateContent, h, defaultDataJson]
  · intro h1 h2
    simp [generateContent, h1, h2, defaultDataJson]

/-- Witness for C9: the three no-fallback modes at concrete inputs. -/
theorem claim_C9_witness :
    generateContent none .throws =
      .obj [("success", .bool false), ("error", .str "AI service temporarily unavailable")] ∧
    (extractJson ("plain prose answer").data = none ∧
      generateContent none (.ok "plain prose answer") =
        .obj [("success", .bool true), ("data", .str "plain prose answer")]) ∧
    (extractJson ("a \x7b; b\x7d c").data = some ("\x7b; b\x7d").data ∧
      jsonParse ("\x7b; b\x7d").data = none ∧
      generateContent none (.ok "a \x7b; b\x7d c") =
        .obj [("success", .bool true), ("data", .str "a \x7b; b\x7d c")]) := by
  refine ⟨(claim_C9 "" []).1, ⟨by decide, ?_⟩, ⟨by decide, by rfl, ?_⟩⟩
  · exact (claim_C9 "plain prose answer" []).2.1 (by decide)
  · exact (claim_C9 "a \x7b; b\x7d c" ("\x7b; b\x7d").data).2.2 (by decide) (by rfl)

/-- Claim C8: the Generate Shelter Plan click handler always sets the
displayed state to the static allocation plan literal, and repeating it any
number of times renders the same content as one invocation. -/
theorem claim_C8 (s : Option ShelterPlan) (n : Nat) :
    renderShelterAllocator (handleGenerateShelterPlan^[n + 1] s) =
      renderShelterAllocator (handleGenerateShelterPlan s) ∧
    handleGenerateShelterPlan^[n + 1] s = some staticShelterPlan := by
  have h2 : handleGenerateShelterPlan^[n + 1] s = some staticShelterPlan := by
    rw [Function.iterate_succ_apply']
    rfl
  exact ⟨by rw [h2]; rfl, h2⟩

/-- Amended claim C3: every prompt-building gateway method that delegates to
generateContent invokes the external completion service exactly once per
call, with no retry; findNearbyHospitals, however, invokes it exactly twice
(a reverse-geocoding call, then the hospital-lookup call). -/
theorem claim_C3_amended (fb : Option Json) (svc : Nat → ModelOutcome) (i : Nat)
    (loc : LocationData) (now : String) (raw : String) (pf : Option String)
    (nl : String) :
    (generateContentRun fb svc i).2 = i + 1 ∧
    (getHospitalsRun svc i).2 = i + 1 ∧
    (getDoctorsRun svc i).2 = i + 1 ∧
    (getPatientsRun svc i).2 = i + 1 ∧
    (findHospitalIntelligentRun svc i).2 = i + 1 ∧
    (getDashboardStatsRun svc i).2 = i + 1 ∧
    (getOccupancyTrendsRun svc i).2 = i + 1 ∧
    (getSpecialtyDistributionRun svc i).2 = i + 1 ∧
    (allocateShelterRun svc i).2 = i + 1 ∧
    (getShelterStatsRun svc i).2 = i + 1 ∧
    (generateWastePlanRun raw pf nl svc i).2 = i + 1 ∧
    (findNearbyHospitalsRun loc now svc i).2 = i + 2 :=
  ⟨rfl, rfl, rfl, rfl, rfl, rfl, rfl, rfl, rfl, rfl, rfl, rfl⟩

/-- Counterexample to C3 as stated: the gateway method findNearbyHospitals
consumes two external-service outcomes in a single call, not one. -/
theorem claim_C3_counterexample :
    (findNearbyHospitalsRun ⟨130569, 4, 802452, 4, 1⟩ "2024-01-01T00:00:00.000Z"
      (fun _ => .throws) 0).2 = 2 ∧ (2 : Nat) ≠ 1 :=
  ⟨rfl, by decide⟩

/-- Amended claim C4: the fallback shapes match the prompt-documented schemas
for getHospitals (every fallback hospital record carries exactly the
prompt's per-record keys) and for allocateShelter (top level), but not for
findHospitalIntelligent: its fallback omits the prompt's top-level
estimated_time key (nesting it inside recommended_hospital instead) and adds
an emergency_contact key. -/
theorem claim_C4_amended :
    getHospitalsFallbackList.map objKeys =
      [getHospitalsPromptKeys, getHospitalsPromptKeys, getHospitalsPromptKeys] ∧
    objKeys allocateShelterFallback = allocateShelterPromptKeys ∧
    objKeys findHospitalIntelligentFallback =
      ["recommended_hospital", "reasoning", "alternatives", "cost_estimate",
       "emergency_contact"] ∧
    objKeys (lookupJ findHospitalIntelligentFallback "recommended_hospital"
        |>.getD .null) =
      ["id", "name", "location", "specialties", "available_beds", "estimated_time",
       "rating"] :=
  ⟨rfl, rfl, rfl, rfl⟩

/-- Counterexample to C4 as stated: findHospitalIntelligent's fallback key
set is not a permutation of the key set its system prompt documents. -/
theorem claim_C4_counterexample :
    ¬ List.Perm (objKeys findHospitalIntelligentFallback)
        findHospitalIntelligentPromptKeys := by
  decide

/-- The four-pattern forEach of extractFoodItems, unfolded. -/
theorem extractFoodItems_eq (r : String) :
    extractFoodItems r =
      foodStep r.data (foodStep r.data (foodStep r.data
        (foodStep r.data ⟨[], 0, 0⟩ tomatoPattern) milkPattern) potatoPattern)
        ricePattern := rfl

/-- One forEach step adds exactly the pattern's value contribution. -/
theorem foodStep_totalValue (rep : String) (acc : FoodExtract) (p : FoodPattern) :
    (foodStep rep.data acc p).totalValue = acc.totalValue + valueContrib p rep := by
  unfold foodStep valueContrib
  cases h : firstQty p rep.data <;> simp [h]

/-- One forEach step adds exactly the pattern's quantity contribution. -/
theorem foodStep_totalQuantity (rep : String) (acc : FoodExtract) (p : FoodPattern) :
    (foodStep rep.data acc p).totalQuantity = acc.totalQuantity + qtyContrib p rep := by
  unfold foodStep qtyContrib
  cases h : firstQty p rep.data <;> simp [h]

/-- One forEach step appends exactly the pattern's item line. -/
theorem foodStep_items (rep : String) (acc : FoodExtract) (p : FoodPattern) :
    (foodStep rep.data acc p).items = acc.items ++ itemContrib p rep := by
  unfold foodStep itemContrib
  cases h : firstQty p rep.data <;> simp [h]

/-- totalValue decomposes as the sum of the four per-pattern contributions. -/
theorem extractFoodItems_totalValue (r : String) :
    (extractFoodItems r).totalValue =
      valueContrib tomatoPattern r + valueContrib milkPattern r +
      valueContrib potatoPattern r + valueContrib ricePattern r := by
  rw [extractFoodItems_eq, foodStep_totalValue, foodStep_totalValue, foodStep_totalValue,
      foodStep_totalValue]
  have h0 : (⟨[], 0, 0⟩ : FoodExtract).totalValue = 0 := rfl
  rw [h0]
  omega

/-- totalQuantity decomposes as the sum of the four per-pattern
contributions. -/
theorem extractFoodItems_totalQuantity (r : String) :
    (extractFoodItems r).totalQuantity =
      qtyContrib tomatoPattern r + qtyContrib milkPattern r +
      qtyContrib potatoPattern r + qtyContrib ricePattern r := by
  rw [extractFoodItems_eq, foodStep_totalQuantity, foodStep_totalQuantity,
      foodStep_totalQuantity, foodStep_totalQuantity]
  have h0 : (⟨[], 0, 0⟩ : FoodExtract).totalQuantity = 0 := rfl
  rw [h0]
  omega

/-- items decomposes as the concatenation of the four per-pattern lines. -/
theorem extractFoodItems_items (r : String) :
    (extractFoodItems r).items =
      itemContrib tomatoPattern r ++ itemContrib milkPattern r ++
      itemContrib potatoPattern r ++ itemContrib ricePattern r := by
  rw [extractFoodItems_eq, foodStep_items, foodStep_items, foodStep_items, foodStep_items]
  have h0 : (⟨[], 0, 0⟩ : FoodExtract).items = [] := rfl
  rw [h0]
  simp

/-- Amended claim C6: whenever the tomato pattern's first match captures
quantity 50 (as it does for the report "50kg tomatoes"), the extraction
records the item line "Tomatoes: 50kg" and tomatoes contribute exactly
50 * 15 = 750 to totalValue. -/
theorem claim_C6_amended (r : String) (h : firstQty tomatoPattern r.data = some 50) :
    "Tomatoes: 50kg" ∈ (extractFoodItems r).items ∧
    (extractFoodItems r).totalValue =
      750 + valueContrib milkPattern r + valueContrib potatoPattern r +
        valueContrib ricePattern r := by
  have hv : valueContrib tomatoPattern r = 750 := by
    unfold valueContrib
    rw [h]
    decide
  constructor
  · rw [extractFoodItems_items]
    have hi : itemContrib tomatoPattern r = ["Tomatoes: 50kg"] := by
      unfold itemContrib
      rw [h]
      decide
    rw [hi]
    simp
  · rw [extractFoodItems_totalValue, hv]

/-- Witness for the amended C6 at the report "50kg tomatoes" itself. -/
theorem claim_C6_witness :
    firstQty tomatoPattern ("50kg tomatoes").data = some 50 ∧
    "Tomatoes: 50kg" ∈ (extractFoodItems "50kg tomatoes").items ∧
    (extractFoodItems "50kg tomatoes").totalValue = 750 := by
  have h : firstQty tomatoPattern ("50kg tomatoes").data = some 50 := by decide
  refine ⟨h, (claim_C6_amended "50kg tomatoes" h).1, ?_⟩
  rw [(claim_C6_amended "50kg tomatoes" h).2,
      (by decide : valueContrib milkPattern "50kg tomatoes" = 0),
      (by decide : valueContrib potatoPattern "50kg tomatoes" = 0),
      (by decide : valueContrib ricePattern "50kg tomatoes" = 0)]

/-- Counterexample to C6 as stated: the report "250kg tomatoes" contains the
substring "50kg tomatoes", yet the extraction identifies quantity 250 (the
leftmost greedy digit run), item line "Tomatoes: 250kg", and a tomato value
of 3750, not 750. -/
theorem claim_C6_counterexample :
    hasSub ("50kg tomatoes").data ("250kg tomatoes").data = true ∧
    extractFoodItems "250kg tomatoes" = ⟨["Tomatoes: 250kg"], 250, 3750⟩ ∧
    (3750 : Nat) ≠ 750 :=
  ⟨by decide, by decide, by decide⟩

/-- Claim C7: when no food-item pattern matches the report, the fallback
plan's estimated impact defaults to 50 people served and 200 kg of food
saved. -/
theorem claim_C7 (raw : String)
    (h1 : firstQty tomatoPattern raw.data = none)
    (h2 : firstQty milkPattern raw.data = none)
    (h3 : firstQty potatoPattern raw.data = none)
    (h4 : firstQty ricePattern raw.data = none) :
    lookupJ (wastePlanImpact raw) "people_served" = some (.num 50 0) ∧
    lookupJ (wastePlanImpact raw) "food_saved_kg" = some (.num 200 0) := by
  have hq : (extractFoodItems raw).totalQuantity = 0 := by
    rw [extractFoodItems_totalQuantity]
    simp [qtyContrib, h1, h2, h3, h4]
  have hv : (extractFoodItems raw).totalValue = 0 := by
    rw [extractFoodItems_totalValue]
    simp [valueContrib, h1, h2, h3, h4]
  have himp : wastePlanImpact raw =
      .obj [("people_served", .num 50 0), ("food_saved_kg", .num 200 0),
            ("economic_value_rupees", .num 5000 0), ("emissions_saved_kg", .num 500 0),
            ("water_saved_liters", .num 200000 0)] := by
    simp only [wastePlanImpact, hq, hv]
    rfl
  rw [himp]
  exact ⟨rfl, rfl⟩

/-- Witness for C7 at the empty report. -/
theorem claim_C7_witness :
    firstQty tomatoPattern ("" : String).data = none ∧
    lookupJ (wastePlanImpact "") "people_served" = some (.num 50 0) ∧
    lookupJ (wastePlanImpact "") "food_saved_kg" = some (.num 200 0) := by
  refine ⟨by decide, ?_, ?_⟩
  · exact (claim_C7 "" (by decide) (by decide) (by decide) (by decide)).1
  · exact (claim_C7 "" (by decide) (by decide) (by decide) (by decide)).2

/-- The leftmost match is the head of the list of all matches. -/
theorem firstQty_eq_head (p : FoodPattern) : ∀ xs, firstQty p xs = (allQty p xs).head? := by
  intro xs
  induction xs with
  | nil => rfl
  | cons c rest ih =>
    cases h : matchQtyAt p (c :: rest) <;> simp [firstQty, allQty, h, ih]

/-- The code's forEach step coincides with the first-of-all-matches step. -/
theorem foodStepHead_eq (rep : List Char) : foodStep rep = foodStepHead rep := by
  funext acc p
  unfold foodStep foodStepHead
  rw [firstQty_eq_head]

/-- Claim C10: extractFoodItems counts at most one quantity per food
category — only the first match of each pattern contributes — so a report
mentioning tomatoes twice with two quantities has the second occurrence
ignored. -/
theorem claim_C10 :
    (∀ r : String, extractFoodItems r = extractFoodItemsHeadOnly r) ∧
    extractFoodItems "50kg tomatoes and 60kg tomatoes" =
      ⟨["Tomatoes: 50kg"], 50, 750⟩ := by
  constructor
  · intro r
    unfold extractFoodItems extractFoodItemsHeadOnly
    rw [foodStepHead_eq]
  · decide

/-- Dropping over a prefix on which the predicate always holds. -/
theorem dropWhile_append_all (p : Char → Bool) (A B : List Char)
    (h : ∀ a ∈ A, p a = true) : (A ++ B).dropWhile p = B.dropWhile p := by
  induction A with
  | nil => rfl
  | cons a A ih =>
    rw [List.cons_append, List.dropWhile_cons, if_pos (h a (List.mem_cons_self a A))]
    exact ih fun x hx => h x (List.mem_cons_of_mem a hx)

/-- Dropping stops at a head on which the predicate fails. -/
theorem dropWhile_cons_false (p : Char → Bool) (a : Char) (l : List Char)
    (h : p a = false) : (a :: l).dropWhile p = a :: l := by
  rw [List.dropWhile_cons, if_neg (by simp [h])]

/-- A list with no occurrence of the character has no first index for it. -/
theorem firstIdx_eq_none (c : Char) (s : List Char) (h : c ∉ s) :
    firstIdx c s = none := by
  induction s with
  | nil => rfl
  | cons x xs ih =>
    have hx : x ≠ c := fun e => h (e ▸ List.mem_cons_self x xs)
    have hxs : c ∉ xs := fun m => h (List.mem_cons_of_mem x m)
    simp [firstIdx, hx, ih hxs]

/-- First index of an occurrence placed after an occurrence-free prefix. -/
theorem firstIdx_append (c : Char) (A B : List Char) (h : c ∉ A) :
    firstIdx c (A ++ c :: B) = some A.length := by
  induction A with
  | nil => simp [firstIdx]
  | cons a A ih =>
    have ha : a ≠ c := fun e => h (e ▸ List.mem_cons_self a A)
    have hA : c ∉ A := fun m => h (List.mem_cons_of_mem a m)
    simp [firstIdx, ha, ih hA]

/-- A list with no occurrence of the character has no last index for it. -/
theorem lastIdx_eq_none (c : Char) (s : List Char) (h : c ∉ s) :
    lastIdx c s = none := by
  induction s with
  | nil => rfl
  | cons x xs ih =>
    have hx : x ≠ c := fun e => h (e ▸ List.mem_cons_self x xs)
    have hxs : c ∉ xs := fun m => h (List.mem_cons_of_mem x m)
    simp [lastIdx, hx, ih hxs]

/-- Appending an occurrence-free suffix does not move the last index. -/
theorem lastIdx_append_not_mem (c : Char) (A X : List Char) (h : c ∉ X) :
    lastIdx c (A ++ X) = lastIdx c A := by
  induction A with
  | nil => simpa [lastIdx] using lastIdx_eq_none c X h
  | cons a A ih => simp [lastIdx, ih]

/-- Last index of an occurrence followed by an occurrence-free suffix. -/
theorem lastIdx_append (c : Char) (A B : List Char) (h : c ∉ B) :
    lastIdx c (A ++ c :: B) = some A.length := by
  induction A with
  | nil => simp [lastIdx, lastIdx_eq_none c B h]
  | cons a A ih => simp [lastIdx, ih]

/-- A last index is a position inside the list. -/
theorem lastIdx_lt_length (c : Char) (s : List Char) (j : Nat)
    (h : lastIdx c s = some j) : j < s.length := by
  induction s generalizing j with
  | nil => simp [lastIdx] at h
  | cons x xs ih =>
    unfold lastIdx at h
    cases hx : lastIdx c xs with
    | some k =>
      rw [hx] at h
      have : k + 1 = j := by simpa using h
      have hk := ih k hx
      simp only [List.length_cons]
      omega
    | none =>
      rw [hx] at h
      by_cases hc : x = c
      · rw [if_pos hc] at h
        have : 0 = j := by simpa using h
        simp only [List.length_cons]
        omega
      · rw [if_neg hc] at h
        cases h

/-- Splitting a list at the first occurrence of a character. -/
theorem exists_first_split (c : Char) (s : List Char) (h : c ∈ s) :
    ∃ A B, s = A ++ c :: B ∧ c ∉ A := by
  induction s with
  | nil => cases h
  | cons x xs ih =>
    by_cases hx : x = c
    · exact ⟨[], xs, by rw [hx]; rfl, by simp⟩
    · have hm : c ∈ xs := by
        cases List.mem_cons.mp h with
        | inl e => exact absurd e.symm hx
        | inr m => exact m
      obtain ⟨A, B, he, hA⟩ := ih hm
      refine ⟨x :: A, B, by rw [he]; rfl, ?_⟩
      intro hmem
      cases List.mem_cons.mp hmem with
      | inl e => exact hx e.symm
      | inr m => exact hA m

/-- Splitting a list at the last occurrence of a character. -/
theorem exists_last_split (c : Char) (s : List Char) (h : c ∈ s) :
    ∃ A B, s = A ++ c :: B ∧ c ∉ B := by
  obtain ⟨A, B, he, hA⟩ := exists_first_split c s.reverse (List.mem_reverse.mpr h)
  refine ⟨B.reverse, A.reverse, ?_, fun m => hA (List.mem_reverse.mp m)⟩
  have hrev := congrArg List.reverse he
  rw [List.reverse_reverse] at hrev
  rw [hrev, List.reverse_append, List.reverse_cons]
  simp

/-- Characters of a brace-free-of-`c` prefix satisfy the scanning predicate
of the extraction step. -/
theorem bne_all_of_not_mem (c : Char) (A : List Char) (h : c ∉ A) :
    ∀ a ∈ A, (a != c) = true := by
  intro a ha
  exact bne_iff_ne.mpr fun e => h (e ▸ ha)

/-- Claim C5: for every response text, the extraction step selects exactly
the span from the first opening brace to the last closing brace (the greedy
regex match), and yields no span — so no parse is attempted — when no
opening brace precedes the last closing brace. -/
theorem claim_C5 (s : List Char) : extractJson s = extractJsonIdx s := by
  by_cases h1 : '\x7b' ∈ s
  · obtain ⟨A, B, rfl, hA⟩ := exists_first_split '\x7b' s h1
    have hdropA : (A ++ '\x7b' :: B).dropWhile (fun c => c != '\x7b') = '\x7b' :: B := by
      rw [dropWhile_append_all _ A _ (bne_all_of_not_mem _ A hA),
          dropWhile_cons_false _ _ _ (by decide)]
    have hfirst : firstIdx '\x7b' (A ++ '\x7b' :: B) = some A.length :=
      firstIdx_append '\x7b' A B hA
    by_cases h2 : '\x7d' ∈ B
    · obtain ⟨C, D, rfl, hD⟩ := exists_last_split '\x7d' B h2
      have hlast : lastIdx '\x7d' (A ++ '\x7b' :: (C ++ '\x7d' :: D)) =
          some (A.length + C.length + 1) := by
        rw [show A ++ '\x7b' :: (C ++ '\x7d' :: D) =
              (A ++ '\x7b' :: C) ++ '\x7d' :: D by simp,
            lastIdx_append '\x7d' _ D hD]
        simp
        omega
      have hu : (('\x7b' :: (C ++ '\x7d' :: D)).reverse.dropWhile
            (fun c => c != '\x7d')).reverse = '\x7b' :: (C ++ ['\x7d']) := by
        rw [show ('\x7b' :: (C ++ '\x7d' :: D)) = (('\x7b' :: C) ++ '\x7d' :: D) by simp,
            List.reverse_append, List.reverse_cons,
            show (D.reverse ++ ['\x7d']) ++ ('\x7b' :: C).reverse =
              D.reverse ++ '\x7d' :: ('\x7b' :: C).reverse by simp,
            dropWhile_append_all _ D.reverse _
              (bne_all_of_not_mem _ D.reverse fun m => hD (List.mem_reverse.mp m)),
            dropWhile_cons_false _ _ _ (by decide)]
        simp
      have hslice : (((A ++ '\x7b' :: (C ++ '\x7d' :: D)).drop A.length).take
            (A.length + C.length + 1 + 1 - A.length)) = '\x7b' :: (C ++ ['\x7d']) := by
        rw [List.drop_left A ('\x7b' :: (C ++ '\x7d' :: D)),
            show A.length + C.length + 1 + 1 - A.length = C.length + 2 by omega,
            show ('\x7b' :: (C ++ '\x7d' :: D)).take (C.length + 2) =
              '\x7b' :: (C ++ '\x7d' :: D).take (C.length + 1) by simp,
            show C.length + 1 = C.length + 1 by rfl]
        rw [show (C ++ '\x7d' :: D).take (C.length + 1) = C ++ ('\x7d' :: D).take 1 from
              List.take_append 1]
        rfl
      simp only [extractJson, extractJsonIdx, hdropA, hfirst, hlast, hu]
      rw [if_neg (by simp), if_pos (by omega), hslice]
    · have hnotB : '\x7d' ∉ '\x7b' :: B := by
        intro m
        cases List.mem_cons.mp m with
        | inl e => exact absurd e (by decide)
        | inr m2 => exact h2 m2
      have hu : (('\x7b' :: B).reverse.dropWhile (fun c => c != '\x7d')).reverse = [] := by
        rw [List.reverse_cons,
            dropWhile_append_all _ B.reverse _
              (bne_all_of_not_mem _ B.reverse fun m => h2 (List.mem_reverse.mp m))]
        rfl
      have hlast : lastIdx '\x7d' (A ++ '\x7b' :: B) = lastIdx '\x7d' A :=
        lastIdx_append_not_mem '\x7d' A ('\x7b' :: B) hnotB
      simp only [extractJson, extractJsonIdx, hdropA, hfirst, hlast, hu]
      rw [if_pos (by rfl)]
      cases hj : lastIdx '\x7d' A with
      | none => rfl
      | some j =>
        have hlt := lastIdx_lt_length '\x7d' A j hj
        have hni : ¬ A.length < j := by omega
        simp [hni]
  · have hdrop : s.dropWhile (fun c => c != '\x7b') = [] := by
      rw [show s = s ++ [] by simp,
          dropWhile_append_all _ s [] (bne_all_of_not_mem _ s h1)]
      rfl
    simp only [extractJson, extractJsonIdx, hdrop, firstIdx_eq_none '\x7b' s h1]
    rfl

/-- Digit characters decode to their value. -/
theorem digitVal_digitChar (d : Nat) (h : d < 10) : digitVal (digitChar d) = d := by
  interval_cases d <;> rfl

/-- Digit characters pass the digit test. -/
theorem isDigitChar_digitChar (d : Nat) (h : d < 10) : isDigitChar (digitChar d) = true := by
  interval_cases d <;> rfl

/-- The digit-accumulating fold, with an arbitrary initial accumulator. -/
theorem natFromDigits_general (ds : List Char) :
    ∀ a : Nat, ds.foldl (fun a c => a * 10 + digitVal c) a =
      a * 10 ^ ds.length + natFromDigits ds := by
  induction ds with
  | nil => intro a; simp [natFromDigits]
  | cons c ds ih =>
    intro a
    rw [List.foldl_cons, ih (a * 10 + digitVal c)]
    have h2 : natFromDigits (c :: ds) = digitVal c * 10 ^ ds.length + natFromDigits ds := by
      unfold natFromDigits
      rw [List.foldl_cons, ih (0 * 10 + digitVal c)]
      have h3 : (0 * 10 + digitVal c) = digitVal c := by ring
      rw [h3]
      rfl
    rw [h2, List.length_cons]
    ring

/-- Digit-run concatenation composes positionally. -/
theorem natFromDigits_append (A B : List Char) :
    natFromDigits (A ++ B) = natFromDigits A * 10 ^ B.length + natFromDigits B := by
  unfold natFromDigits
  rw [List.foldl_append, natFromDigits_general]
  rfl

/-- Leading zeros contribute nothing. -/
theorem nfd_replicate_zero (k : Nat) : natFromDigits (List.replicate k '0') = 0 := by
  induction k with
  | zero => rfl
  | succ k ih =>
    rw [List.replicate_succ]
    unfold natFromDigits at ih ⊢
    rw [List.foldl_cons]
    have h0 : (0 * 10 + digitVal '0') = 0 := rfl
    rw [h0]
    exact ih

/-- Every character of a decimal rendering is a digit. -/
theorem natChars_all_digits (n : Nat) : ∀ c ∈ natChars n, isDigitChar c = true := by
  intro c hc
  unfold natChars at hc
  by_cases h : n = 0
  · rw [if_pos h] at hc
    simp at hc
    subst hc
    rfl
  · rw [if_neg h] at hc
    simp at hc
    obtain ⟨d, hd, rfl⟩ := hc
    exact isDigitChar_digitChar d (Nat.digits_lt_base (by norm_num) hd)

/-- Decimal renderings are nonempty. -/
theorem natChars_ne_nil (n : Nat) : natChars n ≠ [] := by
  unfold natChars
  by_cases h : n = 0
  · simp [h]
  · rw [if_neg h]
    simp [h, Nat.digits_ne_nil_iff_ne_zero]

/-- Parsing a decimal rendering recovers the number. -/
theorem natFromDigits_natChars (n : Nat) : natFromDigits (natChars n) = n := by
  unfold natChars
  by_cases h : n = 0
  · rw [if_pos h, h]
    rfl
  · rw [if_neg h]
    have key : ∀ L : List Nat, (∀ d ∈ L, d < 10) →
        natFromDigits (L.reverse.map digitChar) = Nat.ofDigits 10 L := by
      intro L
      induction L with
      | nil =>
        intro _
        simp [natFromDigits, Nat.ofDigits_nil]
      | cons d L ih =>
        intro hall
        rw [List.reverse_cons, List.map_append, natFromDigits_append,
            ih (fun x hx => hall x (List.mem_cons_of_mem d hx)), Nat.ofDigits_cons]
        have hd : d < 10 := hall d (List.mem_cons_self d L)
        simp only [List.map_cons, List.map_nil, List.length_cons, List.length_nil]
        have h1 : natFromDigits [digitChar d] = d := by
          unfold natFromDigits
          rw [List.foldl_cons]
          have h0 : (0 * 10 + digitVal (digitChar d)) = d := by
            rw [digitVal_digitChar d hd]
            ring
          rw [h0]
          rfl
        rw [h1]
        ring
    rw [key _ (fun d hd => Nat.digits_lt_base (by norm_num) hd), Nat.ofDigits_digits]

/-- Every character of a padded rendering is a digit. -/
theorem padDigits_all_digits (n len : Nat) : ∀ c ∈ padDigits n len, isDigitChar c = true := by
  intro c hc
  unfold padDigits at hc
  rcases List.mem_append.mp hc with h | h
  · rw [List.eq_of_mem_replicate h]
    rfl
  · exact natChars_all_digits n c h

/-- Padded renderings reach the requested length. -/
theorem padDigits_length (n len : Nat) : len ≤ (padDigits n len).length := by
  unfold padDigits
  simp
  omega

/-- Padded renderings are nonempty. -/
theorem padDigits_ne_nil (n len : Nat) : padDigits n len ≠ [] := by
  unfold padDigits
  intro h
  rcases List.append_eq_nil.mp h with ⟨_, h2⟩
  exact natChars_ne_nil n h2

/-- Parsing a padded rendering recovers the number. -/
theorem natFromDigits_padDigits (n len : Nat) : natFromDigits (padDigits n len) = n := by
  unfold padDigits
  rw [natFromDigits_append, nfd_replicate_zero, natFromDigits_natChars]
  simp

/-- Taking over a satisfying prefix stops exactly at a failing head. -/
theorem takeWhile_append_all (p : Char → Bool) (A R : List Char)
    (hA : ∀ a ∈ A, p a = true) (hR : HeadNot p R) : (A ++ R).takeWhile p = A := by
  induction A with
  | nil =>
    cases R with
    | nil => rfl
    | cons c R' =>
      simp only [List.nil_append]
      rw [List.takeWhile_cons, if_neg (by simp [hR c rfl])]
  | cons a A ih =>
    rw [List.cons_append, List.takeWhile_cons, if_pos (hA a (List.mem_cons_self a A)),
        ih (fun x hx => hA x (List.mem_cons_of_mem a hx))]

/-- Dropping over a satisfying prefix stops exactly at a failing head. -/
theorem dropWhile_append_stop (p : Char → Bool) (A R : List Char)
    (hA : ∀ a ∈ A, p a = true) (hR : HeadNot p R) : (A ++ R).dropWhile p = R := by
  rw [dropWhile_append_all p A R hA]
  cases R with
  | nil => rfl
  | cons c R' => exact dropWhile_cons_false p c R' (hR c rfl)

/-- A delimiter-headed remainder never starts with a digit. -/
theorem delim_headNot_digit (R : List Char) (h : Delim R) : HeadNot isDigitChar R := by
  intro c hc
  cases R with
  | nil => cases hc
  | cons x R' =>
    have hx : x = c := by simpa using hc
    subst hx
    have h' : x = ',' ∨ x = ']' ∨ x = '\x7d' := h
    rcases h' with rfl | rfl | rfl <;> rfl

/-- A delimiter-headed remainder never starts with whitespace. -/
theorem delim_headNot_ws (R : List Char) (h : Delim R) : HeadNot isWsChar R := by
  intro c hc
  cases R with
  | nil => cases hc
  | cons x R' =>
    have hx : x = c := by simpa using hc
    subst hx
    have h' : x = ',' ∨ x = ']' ∨ x = '\x7d' := h
    rcases h' with rfl | rfl | rfl <;> rfl

/-- A delimiter-headed remainder never starts with a decimal point. -/
theorem delim_head_ne_dot (R : List Char) (h : Delim R) : R.head? ≠ some '.' := by
  cases R with
  | nil => simp
  | cons x R' =>
    have h' : x = ',' ∨ x = ']' ∨ x = '\x7d' := h
    rcases h' with rfl | rfl | rfl <;> simp

/-- Skipping whitespace is the identity on a non-whitespace head. -/
theorem skipWs_cons_nonws (c : Char) (R : List Char) (h : isWsChar c = false) :
    skipWs (c :: R) = c :: R :=
  dropWhile_cons_false isWsChar c R h

/-- A digit character differs from any non-digit character. -/
theorem char_ne_of_digit (c x : Char) (hc : isDigitChar c = true)
    (hx : isDigitChar x = false) : c ≠ x := by
  intro e
  rw [e, hx] at hc
  cases hc

/-- Digit characters are not whitespace. -/
theorem isWsChar_eq_false_of_digit (c : Char) (h : isDigitChar c = true) :
    isWsChar c = false := by
  cases hw : isWsChar c
  · rfl
  · exfalso
    have hp : c = ' ' ∨ c = '\t' ∨ c = '\n' ∨ c = '\r' := by
      simpa [isWsChar] using hw
    rcases hp with rfl | rfl | rfl | rfl <;> exact absurd h (by decide)

/-- Consuming an expected literal prefix succeeds and returns the rest. -/
theorem expectChars_append (P R : List Char) : expectChars P (P ++ R) = some R := by
  induction P with
  | nil => rfl
  | cons p P ih =>
    rw [List.cons_append]
    unfold expectChars
    rw [if_pos rfl, ih]

/-- Parsing an escaped string body up to the closing quote recovers the
original characters and leaves the rest untouched. -/
theorem parseStrChars_esc (s R : List Char) :
    parseStrChars (escChars s ++ '"' :: R) = some (s, R) := by
  induction s with
  | nil =>
    show parseStrChars ('"' :: R) = some ([], R)
    unfold parseStrChars
    rw [if_pos rfl]
  | cons c cs ih =>
    by_cases hc : c = '"' ∨ c = '\\'
    · have he : escChars (c :: cs) = '\\' :: c :: escChars cs := by
        simp only [escChars]
        rw [if_pos hc]
      rw [he, List.cons_append, List.cons_append]
      unfold parseStrChars
      rw [if_neg (by decide), if_pos rfl]
      show (if c = '"' ∨ c = '\\' then
        (parseStrChars (escChars cs ++ '"' :: R)).map fun p => (c :: p.1, p.2)
        else none) = some (c :: cs, R)
      rw [if_pos hc, ih]
      rfl
    · push_neg at hc
      have he : escChars (c :: cs) = c :: escChars cs := by
        simp only [escChars]
        rw [if_neg (by simp [hc.1, hc.2])]
      rw [he, List.cons_append]
      unfold parseStrChars
      rw [if_neg hc.1, if_neg hc.2, ih]
      rfl

/-- The unsigned numeric serialization starts with a digit. -/
theorem serNumCore_shape (n e : Nat) :
    ∃ d t, serNumCore n e = d :: t ∧ isDigitChar d = true := by
  unfold serNumCore
  by_cases he : e = 0
  · rw [if_pos he]
    cases hnc : natChars n with
    | nil => exact absurd hnc (natChars_ne_nil n)
    | cons d t =>
      refine ⟨d, t, rfl, ?_⟩
      exact natChars_all_digits n d (hnc ▸ List.mem_cons_self d t)
  · rw [if_neg he]
    cases hd : padDigits n (e + 1) with
    | nil => exact absurd hd (padDigits_ne_nil n (e + 1))
    | cons d t =>
      have hlen : e + 1 ≤ (padDigits n (e + 1)).length := padDigits_length n (e + 1)
      rw [hd] at hlen
      have hk : ∃ k, (d :: t).length - e = k + 1 := by
        simp only [List.length_cons] at hlen ⊢
        exact ⟨t.length - e, by omega⟩
      obtain ⟨k, hk⟩ := hk
      rw [hk, List.take_succ_cons]
      refine ⟨d, _, rfl, ?_⟩
      exact padDigits_all_digits n (e + 1) d (hd ▸ List.mem_cons_self d t)

/-- The signed numeric serialization starts with a minus sign or a digit. -/
theorem serNum_shape (m : Int) (e : Nat) :
    ∃ c t, serNum m e = c :: t ∧ (c = '-' ∨ isDigitChar c = true) := by
  unfold serNum
  by_cases hm : m < 0
  · rw [if_pos hm]
    exact ⟨'-', serNumCore m.natAbs e, rfl, Or.inl rfl⟩
  · rw [if_neg hm]
    obtain ⟨d, t, hdt, hdig⟩ := serNumCore_shape m.natAbs e
    exact ⟨d, t, hdt, Or.inr hdig⟩

/-- Parsing the unsigned numeric serialization followed by a delimiter
recovers the magnitude and the fraction-digit count. -/
theorem parseNumBody_core (neg : Bool) (n e : Nat) (R : List Char) (hR : Delim R) :
    parseNumBody neg (serNumCore n e ++ R) = some (.num (applySign neg n) e, R) := by
  unfold parseNumBody serNumCore
  by_cases he : e = 0
  · subst he
    rw [if_pos rfl]
    have htake : (natChars n ++ R).takeWhile isDigitChar = natChars n :=
      takeWhile_append_all _ _ _ (natChars_all_digits n) (delim_headNot_digit R hR)
    have hdrop : (natChars n ++ R).dropWhile isDigitChar = R :=
      dropWhile_append_stop _ _ _ (natChars_all_digits n) (delim_headNot_digit R hR)
    rw [htake, hdrop,
        if_neg (by simp [List.isEmpty_iff, natChars_ne_nil n]),
        if_neg (delim_head_ne_dot R hR), natFromDigits_natChars]
  · rw [if_neg he]
    have hlen : e + 1 ≤ (padDigits n (e + 1)).length := padDigits_length n (e + 1)
    have hassoc : (padDigits n (e + 1)).take ((padDigits n (e + 1)).length - e) ++
        '.' :: (padDigits n (e + 1)).drop ((padDigits n (e + 1)).length - e) ++ R =
        (padDigits n (e + 1)).take ((padDigits n (e + 1)).length - e) ++
        ('.' :: ((padDigits n (e + 1)).drop ((padDigits n (e + 1)).length - e) ++ R)) := by
      simp
    rw [hassoc]
    have hTdig : ∀ c ∈ (padDigits n (e + 1)).take ((padDigits n (e + 1)).length - e),
        isDigitChar c = true :=
      fun c hc => padDigits_all_digits n (e + 1) c (List.take_subset _ _ hc)
    have hDdig : ∀ c ∈ (padDigits n (e + 1)).drop ((padDigits n (e + 1)).length - e),
        isDigitChar c = true :=
      fun c hc => padDigits_all_digits n (e + 1) c (List.drop_subset _ _ hc)
    have hdotHead : HeadNot isDigitChar
        ('.' :: ((padDigits n (e + 1)).drop ((padDigits n (e + 1)).length - e) ++ R)) := by
      intro c hc
      have : c = '.' := by simpa using hc.symm
      subst this
      rfl
    have htake : ((padDigits n (e + 1)).take ((padDigits n (e + 1)).length - e) ++
        ('.' :: ((padDigits n (e + 1)).drop ((padDigits n (e + 1)).length - e) ++ R))).takeWhile
          isDigitChar =
        (padDigits n (e + 1)).take ((padDigits n (e + 1)).length - e) :=
      takeWhile_append_all _ _ _ hTdig hdotHead
    have hdrop : ((padDigits n (e + 1)).take ((padDigits n (e + 1)).length - e) ++
        ('.' :: ((padDigits n (e + 1)).drop ((padDigits n (e + 1)).length - e) ++ R))).dropWhile
          isDigitChar =
        '.' :: ((padDigits n (e + 1)).drop ((padDigits n (e + 1)).length - e) ++ R) :=
      dropWhile_append_stop _ _ _ hTdig hdotHead
    have hTlen : ((padDigits n (e + 1)).take ((padDigits n (e + 1)).length - e)).length =
        (padDigits n (e + 1)).length - e := by
      rw [List.length_take]
      omega
    have hTne : ¬ ((padDigits n (e + 1)).take
        ((padDigits n (e + 1)).length - e)).isEmpty = true := by
      simp only [List.isEmpty_iff]
      intro hnil
      rw [hnil] at hTlen
      simp at hTlen
      omega
    have htake2 : ((padDigits n (e + 1)).drop ((padDigits n (e + 1)).length - e) ++
        R).takeWhile isDigitChar =
        (padDigits n (e + 1)).drop ((padDigits n (e + 1)).length - e) :=
      takeWhile_append_all _ _ _ hDdig (delim_headNot_digit R hR)
    have hdrop2 : ((padDigits n (e + 1)).drop ((padDigits n (e + 1)).length - e) ++
        R).dropWhile isDigitChar = R :=
      dropWhile_append_stop _ _ _ hDdig (delim_headNot_digit R hR)
    have hDlen : ((padDigits n (e + 1)).drop ((padDigits n (e + 1)).length - e)).length = e := by
      rw [List.length_drop]
      omega
    have hDne : ¬ ((padDigits n (e + 1)).drop
        ((padDigits n (e + 1)).length - e)).isEmpty = true := by
      simp only [List.isEmpty_iff]
      intro hnil
      rw [hnil] at hDlen
      simp at hDlen
      omega
    rw [htake, if_neg hTne, hdrop]
    rw [if_pos (by simp), List.tail_cons, htake2, if_neg hDne, hdrop2]
    have hval : natFromDigits ((padDigits n (e + 1)).take ((padDigits n (e + 1)).length - e)) *
        10 ^ ((padDigits n (e + 1)).drop ((padDigits n (e + 1)).length - e)).length +
        natFromDigits ((padDigits n (e + 1)).drop ((padDigits n (e + 1)).length - e)) = n := by
      rw [← natFromDigits_append, List.take_append_drop, natFromDigits_padDigits]
    rw [hval, hDlen]

/-- Parsing the signed numeric serialization followed by a delimiter
recovers the number. -/
theorem parseNum_serNum (m : Int) (e : Nat) (R : List Char) (hR : Delim R) :
    parseNum (serNum m e ++ R) = some (.num m e, R) := by
  unfold serNum parseNum
  by_cases hm : m < 0
  · rw [if_pos hm, List.cons_append]
    rw [if_pos (by simp), List.tail_cons, parseNumBody_core true m.natAbs e R hR]
    have : applySign true m.natAbs = m := by
      unfold applySign
      rw [if_pos rfl]
      omega
    rw [this]
  · rw [if_neg hm]
    obtain ⟨d, t, hdt, hdig⟩ := serNumCore_shape m.natAbs e
    have hne : ¬ ((serNumCore m.natAbs e ++ R).head? = some '-') := by
      rw [hdt, List.cons_append]
      simp only [List.head?_cons, Option.some.injEq]
      exact char_ne_of_digit d '-' hdig (by decide)
    rw [if_neg hne, parseNumBody_core false m.natAbs e R hR]
    have : applySign false m.natAbs = m := by
      unfold applySign
      rw [if_neg (by decide)]
      omega
    rw [this]

/-- Parsing fuel requirements are positive. -/
theorem needJ_pos (v : Json) : 1 ≤ needJ v := by
  cases v with
  | null => simp [needJ]
  | bool b => simp [needJ]
  | num m e => simp [needJ]
  | str s => simp [needJ]
  | arr l => cases l <;> simp [needJ]
  | obj l =>
    cases l with
    | nil => simp [needJ]
    | cons kv kvs =>
      cases kv
      simp [needJ]

/-- List-level parsing fuel requirements are positive. -/
theorem needElems_pos (v : Json) (vs : List Json) : 1 ≤ needElems v vs := by
  cases vs <;> simp [needElems]

/-- Member-level parsing fuel requirements are positive. -/
theorem needMembers_pos (v : Json) (kvs : List (String × Json)) : 1 ≤ needMembers v kvs := by
  cases kvs with
  | nil => simp [needMembers]
  | cons kv rest =>
    cases kv
    simp [needMembers]

/-- One unfolding step of parseVal at positive fuel and a non-whitespace
head. -/
theorem parseVal_succ_cons (fuel : Nat) (c : Char) (rest : List Char)
    (h : isWsChar c = false) :
    parseVal (fuel + 1) (c :: rest) =
      (if c = 'n' then (expectChars ['u', 'l', 'l'] rest).map fun r => (Json.null, r)
      else if c = 't' then (expectChars ['r', 'u', 'e'] rest).map fun r => (Json.bool true, r)
      else if c = 'f' then
        (expectChars ['a', 'l', 's', 'e'] rest).map fun r => (Json.bool false, r)
      else if c = '"' then (parseStrChars rest).map fun p => (Json.str (String.mk p.1), p.2)
      else if c = '[' then
        if (skipWs rest).head? = some ']' then some (Json.arr [], (skipWs rest).tail)
        else (parseElems fuel (skipWs rest)).map fun p => (Json.arr p.1, p.2)
      else if c = '\x7b' then
        if (skipWs rest).head? = some '\x7d' then some (Json.obj [], (skipWs rest).tail)
        else (parseMembers fuel (skipWs rest)).map fun p => (Json.obj p.1, p.2)
      else if c = '-' ∨ isDigitChar c then parseNum (c :: rest)
      else none) := by
  simp only [parseVal]
  rw [skipWs_cons_nonws c rest h]

/-- A numeric-literal head passes none of the earlier parser dispatch
tests. -/
theorem numHead_dispatch (c : Char) (hc : c = '-' ∨ isDigitChar c = true) :
    c ≠ 'n' ∧ c ≠ 't' ∧ c ≠ 'f' ∧ c ≠ '"' ∧ c ≠ '[' ∧ c ≠ '\x7b' := by
  rcases hc with rfl | hd
  · exact ⟨by decide, by decide, by decide, by decide, by decide, by decide⟩
  · exact ⟨char_ne_of_digit c 'n' hd (by decide), char_ne_of_digit c 't' hd (by decide),
      char_ne_of_digit c 'f' hd (by decide), char_ne_of_digit c '"' hd (by decide),
      char_ne_of_digit c '[' hd (by decide), char_ne_of_digit c '\x7b' hd (by decide)⟩

/-- Every serialized JSON value starts with a character that is neither
whitespace nor a closing bracket or brace. -/
theorem serJson_shape (v : Json) : ∃ c t, serJson v = c :: t ∧ isWsChar c = false ∧
    c ≠ ']' ∧ c ≠ '\x7d' := by
  cases v with
  | null => exact ⟨'n', _, rfl, by decide, by decide, by decide⟩
  | bool b =>
    cases b
    · exact ⟨'f', _, rfl, by decide, by decide, by decide⟩
    · exact ⟨'t', _, rfl, by decide, by decide, by decide⟩
  | num m e =>
    obtain ⟨c, t, hct, hc⟩ := serNum_shape m e
    have h1 : isWsChar c = false := by
      rcases hc with rfl | hd
      · decide
      · exact isWsChar_eq_false_of_digit c hd
    have h2 : c ≠ ']' := by
      rcases hc with rfl | hd
      · decide
      · exact char_ne_of_digit c ']' hd (by decide)
    have h3 : c ≠ '\x7d' := by
      rcases hc with rfl | hd
      · decide
      · exact char_ne_of_digit c '\x7d' hd (by decide)
    exact ⟨c, t, by rw [serJson, hct], h1, h2, h3⟩
  | str s => exact ⟨'"', _, rfl, by decide, by decide, by decide⟩
  | arr l =>
    cases l with
    | nil => exact ⟨'[', _, rfl, by decide, by decide, by decide⟩
    | cons v vs => exact ⟨'[', _, rfl, by decide, by decide, by decide⟩
  | obj l =>
    cases l with
    | nil => exact ⟨'\x7b', _, rfl, by decide, by decide, by decide⟩
    | cons kv kvs =>
      cases kv
      exact ⟨'\x7b', _, rfl, by decide, by decide, by decide⟩

/-- What follows a serialized array element is always a delimiter. -/
theorem delim_serElemsRest (vs : List Json) (R : List Char) :
    Delim (serElemsRest vs ++ ']' :: R) := by
  cases vs with
  | nil => exact Or.inr (Or.inl rfl)
  | cons w ws => exact Or.inl rfl

/-- What follows a serialized object member is always a delimiter. -/
theorem delim_serMembersRest (kvs : List (String × Json)) (R : List Char) :
    Delim (serMembersRest kvs ++ '\x7d' :: R) := by
  cases kvs with
  | nil => exact Or.inr (Or.inr rfl)
  | cons kv rest =>
    cases kv
    exact Or.inl rfl

mutual

/-- Round trip: parsing the serialization of a JSON value followed by a
delimiter recovers exactly the value, given enough fuel. -/
theorem parse_ser (v : Json) (R : List Char) (fuel : Nat) (hf : needJ v ≤ fuel)
    (hR : Delim R) : parseVal fuel (serJson v ++ R) = some (v, R) := by
  cases fuel with
  | zero => exact absurd (Nat.le_trans (needJ_pos v) hf) (by omega)
  | succ f =>
    cases v with
    | null => rfl
    | bool b => cases b <;> rfl
    | num m e =>
      obtain ⟨c, t, hct, hc⟩ := serNum_shape m e
      have hnonws : isWsChar c = false := by
        rcases hc with rfl | hd
        · decide
        · exact isWsChar_eq_false_of_digit c hd
      obtain ⟨h1, h2, h3, h4, h5, h6⟩ := numHead_dispatch c hc
      rw [show serJson (.num m e) = serNum m e from rfl, hct, List.cons_append,
          parseVal_succ_cons f c (t ++ R) hnonws,
          if_neg h1, if_neg h2, if_neg h3, if_neg h4, if_neg h5, if_neg h6,
          if_pos hc, ← List.cons_append, ← hct]
      exact parseNum_serNum m e R hR
    | str s =>
      show parseVal (f + 1) (('"' :: (escChars s.data ++ ['"'])) ++ R) = some (.str s, R)
      rw [List.cons_append, parseVal_succ_cons f '"' _ (by decide),
          if_neg (by decide), if_neg (by decide), if_neg (by decide), if_pos rfl,
          show (escChars s.data ++ ['"']) ++ R = escChars s.data ++ '"' :: R by simp,
          parseStrChars_esc]
      rfl
    | arr l =>
      cases l with
      | nil => rfl
      | cons v vs =>
        have hfe : needElems v vs ≤ f := by
          simp only [needJ] at hf
          omega
        show parseVal (f + 1)
            (('[' :: (serJson v ++ serElemsRest vs ++ [']'])) ++ R) = some (.arr (v :: vs), R)
        rw [List.cons_append, parseVal_succ_cons f '[' _ (by decide),
            if_neg (by decide), if_neg (by decide), if_neg (by decide), if_neg (by decide),
            if_pos rfl,
            show (serJson v ++ serElemsRest vs ++ [']']) ++ R =
              serJson v ++ serElemsRest vs ++ ']' :: R by simp]
        obtain ⟨c, t, hct, hws, hbr, hbc⟩ := serJson_shape v
        have hflat : serJson v ++ serElemsRest vs ++ ']' :: R =
            c :: (t ++ serElemsRest vs ++ ']' :: R) := by
          rw [hct]
          simp
        have hskip : skipWs (serJson v ++ serElemsRest vs ++ ']' :: R) =
            serJson v ++ serElemsRest vs ++ ']' :: R := by
          rw [hflat]
          exact skipWs_cons_nonws c _ hws
        have hhead : ¬ ((serJson v ++ serElemsRest vs ++ ']' :: R).head? = some ']') := by
          rw [hflat]
          simp [hbr]
        rw [hskip, if_neg hhead, parse_serElems v vs R f hfe hR]
        rfl
    | obj l =>
      cases l with
      | nil => rfl
      | cons kv kvs =>
        cases hkv : kv with
        | mk k v =>
        subst hkv
        have hfm : needMembers v kvs ≤ f := by
          simp only [needJ] at hf
          omega
        show parseVal (f + 1)
            (('\x7b' :: (serStr k ++ ':' :: serJson v ++ serMembersRest kvs ++ ['\x7d'])) ++ R) =
          some (.obj ((k, v) :: kvs), R)
        rw [List.cons_append, parseVal_succ_cons f '\x7b' _ (by decide),
            if_neg (by decide), if_neg (by decide), if_neg (by decide), if_neg (by decide),
            if_neg (by decide), if_pos rfl,
            show (serStr k ++ ':' :: serJson v ++ serMembersRest kvs ++ ['\x7d']) ++ R =
              serStr k ++ ':' :: serJson v ++ serMembersRest kvs ++ '\x7d' :: R by simp]
        have hflat : serStr k ++ ':' :: serJson v ++ serMembersRest kvs ++ '\x7d' :: R =
            '"' :: ((escChars k.data ++ ['"']) ++ ':' :: serJson v ++ serMembersRest kvs ++
              '\x7d' :: R) := by
          rw [show serStr k = '"' :: (escChars k.data ++ ['"']) from rfl]
          simp
        have hskip : skipWs (serStr k ++ ':' :: serJson v ++ serMembersRest kvs ++ '\x7d' :: R) =
            serStr k ++ ':' :: serJson v ++ serMembersRest kvs ++ '\x7d' :: R := by
          rw [hflat]
          exact skipWs_cons_nonws '"' _ (by decide)
        have hhead : ¬ ((serStr k ++ ':' :: serJson v ++ serMembersRest kvs ++
            '\x7d' :: R).head? = some '\x7d') := by
          rw [hflat]
          simp
        rw [hskip, if_neg hhead, parse_serMembers k v kvs R f hfm hR]
        rfl
termination_by sizeOf v
decreasing_by
  all_goals subst_vars
  all_goals simp
  all_goals omega

/-- Round trip for the element list of a nonempty serialized array. -/
theorem parse_serElems (v : Json) (vs : List Json) (R : List Char) (fuel : Nat)
    (hf : needElems v vs ≤ fuel) (hR : Delim R) :
    parseElems fuel (serJson v ++ serElemsRest vs ++ ']' :: R) = some (v :: vs, R) := by
  cases fuel with
  | zero => exact absurd (Nat.le_trans (needElems_pos v vs) hf) (by omega)
  | succ f =>
    cases vs with
    | nil =>
      have hfv : needJ v ≤ f := by
        simp only [needElems] at hf
        omega
      rw [show serJson v ++ serElemsRest [] ++ ']' :: R = serJson v ++ ']' :: R by
            simp [serElemsRest]]
      simp only [parseElems]
      rw [parse_ser v (']' :: R) f hfv (Or.inr (Or.inl rfl))]
      show (if (skipWs (']' :: R)).head? = some ',' then
          (parseElems f (skipWs (']' :: R)).tail).map fun p => (v :: p.1, p.2)
        else if (skipWs (']' :: R)).head? = some ']' then some ([v], (skipWs (']' :: R)).tail)
        else none) = some ([v], R)
      rw [skipWs_cons_nonws ']' R (by decide), if_neg (by simp), if_pos (by simp)]
      rfl
    | cons w ws =>
      have hfv : needJ v ≤ f ∧ needElems w ws ≤ f := by
        simp only [needElems] at hf
        omega
      rw [show serJson v ++ serElemsRest (w :: ws) ++ ']' :: R =
            serJson v ++ ',' :: (serJson w ++ serElemsRest ws ++ ']' :: R) by
          simp [serElemsRest]]
      simp only [parseElems]
      rw [parse_ser v (',' :: (serJson w ++ serElemsRest ws ++ ']' :: R)) f hfv.1
          (Or.inl rfl)]
      show (if (skipWs (',' :: (serJson w ++ serElemsRest ws ++ ']' :: R))).head? = some ','
          then (parseElems f
            (skipWs (',' :: (serJson w ++ serElemsRest ws ++ ']' :: R))).tail).map
              fun p => (v :: p.1, p.2)
        else if (skipWs (',' :: (serJson w ++ serElemsRest ws ++ ']' :: R))).head? = some ']'
          then some ([v], (skipWs (',' :: (serJson w ++ serElemsRest ws ++ ']' :: R))).tail)
        else none) = some (v :: w :: ws, R)
      rw [skipWs_cons_nonws ',' _ (by decide), if_pos (by simp), List.tail_cons,
          parse_serElems w ws R f hfv.2 hR]
      rfl
termination_by sizeOf v + sizeOf vs + 1
decreasing_by
  all_goals subst_vars
  all_goals simp
  all_goals omega

/-- Round trip for the member list of a nonempty serialized object. -/
theorem parse_serMembers (k : String) (v : Json) (kvs : List (String × Json)) (R : List Char)
    (fuel : Nat) (hf : needMembers v kvs ≤ fuel) (hR : Delim R) :
    parseMembers fuel (serStr k ++ ':' :: serJson v ++ serMembersRest kvs ++ '\x7d' :: R) =
      some ((k, v) :: kvs, R) := by
  cases fuel with
  | zero => exact absurd (Nat.le_trans (needMembers_pos v kvs) hf) (by omega)
  | succ f =>
    have hx : serStr k ++ ':' :: serJson v ++ serMembersRest kvs ++ '\x7d' :: R =
        '"' :: (escChars k.data ++ '"' ::
          (':' :: (serJson v ++ (serMembersRest kvs ++ '\x7d' :: R)))) := by
      rw [show serStr k = '"' :: (escChars k.data ++ ['"']) from rfl]
      simp
    rw [hx]
    simp only [parseMembers]
    rw [skipWs_cons_nonws '"' _ (by decide), if_pos (by simp), List.tail_cons,
        parseStrChars_esc]
    show (if (skipWs (':' :: (serJson v ++ (serMembersRest kvs ++ '\x7d' :: R)))).head? =
          some ':' then
        match parseVal f
            (skipWs (':' :: (serJson v ++ (serMembersRest kvs ++ '\x7d' :: R)))).tail with
        | none => none
        | some (v, r4) =>
          if (skipWs r4).head? = some ',' then
            (parseMembers f (skipWs r4).tail).map
              fun p => ((String.mk k.data, v) :: p.1, p.2)
          else if (skipWs r4).head? = some '\x7d' then
            some ([(String.mk k.data, v)], (skipWs r4).tail)
          else none
      else none) = some ((k, v) :: kvs, R)
    rw [skipWs_cons_nonws ':' _ (by decide), if_pos (by simp), List.tail_cons]
    have hfv : needJ v ≤ f := by
      cases kvs with
      | nil =>
        simp only [needMembers] at hf
        omega
      | cons kv2 rest2 =>
        cases kv2
        simp only [needMembers] at hf
        omega
    rw [parse_ser v (serMembersRest kvs ++ '\x7d' :: R) f hfv (delim_serMembersRest kvs R)]
    cases kvs with
    | nil =>
      show (if (skipWs (serMembersRest [] ++ '\x7d' :: R)).head? = some ',' then
          (parseMembers f (skipWs (serMembersRest [] ++ '\x7d' :: R)).tail).map
            fun p => ((String.mk k.data, v) :: p.1, p.2)
        else if (skipWs (serMembersRest [] ++ '\x7d' :: R)).head? = some '\x7d' then
          some ([(String.mk k.data, v)], (skipWs (serMembersRest [] ++ '\x7d' :: R)).tail)
        else none) = some ([(k, v)], R)
      rw [show serMembersRest ([] : List (String × Json)) ++ '\x7d' :: R = '\x7d' :: R by
            simp [serMembersRest],
          skipWs_cons_nonws '\x7d' R (by decide), if_neg (by simp), if_pos (by simp)]
      rfl
    | cons kv2 rest2 =>
      cases hkv2 : kv2 with
      | mk k2 w =>
      subst hkv2
      have hfm2 : needMembers w rest2 ≤ f := by
        simp only [needMembers] at hf
        omega
      show (if (skipWs (serMembersRest ((k2, w) :: rest2) ++ '\x7d' :: R)).head? = some ','
          then (parseMembers f
              (skipWs (serMembersRest ((k2, w) :: rest2) ++ '\x7d' :: R)).tail).map
            fun p => ((String.mk k.data, v) :: p.1, p.2)
        else if (skipWs (serMembersRest ((k2, w) :: rest2) ++ '\x7d' :: R)).head? =
            some '\x7d' then
          some ([(String.mk k.data, v)],
            (skipWs (serMembersRest ((k2, w) :: rest2) ++ '\x7d' :: R)).tail)
        else none) = some ((k, v) :: (k2, w) :: rest2, R)
      rw [show serMembersRest ((k2, w) :: rest2) ++ '\x7d' :: R =
            ',' :: (serStr k2 ++ ':' :: serJson w ++ serMembersRest rest2 ++ '\x7d' :: R) by
          simp [serMembersRest],
          skipWs_cons_nonws ',' _ (by decide), if_pos (by simp), List.tail_cons,
          parse_serMembers k2 w rest2 R f hfm2 hR]
      rfl
termination_by sizeOf v + sizeOf kvs + 1
decreasing_by
  all_goals subst_vars
  all_goals simp
  all_goals omega

end

mutual

/-- The parsing fuel needed by a value is at most its serialized length. -/
theorem needJ_le (v : Json) : needJ v ≤ (serJson v).length := by
  cases v with
  | null => simp [needJ, serJson]
  | bool b => cases b <;> simp [needJ, serJson]
  | num m e =>
    obtain ⟨c, t, hct, _⟩ := serNum_shape m e
    simp only [needJ, serJson, hct, List.length_cons]
    omega
  | str s =>
    simp only [needJ, serJson]
    simp [serStr]
  | arr l =>
    cases l with
    | nil => simp [needJ, serJson]
    | cons v vs =>
      have h1 := needElems_le v vs
      simp only [needJ, serJson, List.length_cons, List.length_append]
      omega
  | obj l =>
    cases l with
    | nil => simp [needJ, serJson]
    | cons kv kvs =>
      cases hkv : kv with
      | mk k v =>
      subst hkv
      have h1 := needMembers_le v kvs
      simp only [needJ, serJson, List.length_cons, List.length_append]
      omega
termination_by sizeOf v
decreasing_by
  all_goals subst_vars
  all_goals simp
  all_goals omega

/-- Element-list fuel is bounded by the serialized tail length. -/
theorem needElems_le (v : Json) (vs : List Json) :
    needElems v vs ≤ 1 + (serJson v).length + (serElemsRest vs).length := by
  cases vs with
  | nil =>
    have h1 := needJ_le v
    simp only [needElems, serElemsRest, List.length_nil]
    omega
  | cons w ws =>
    have h1 := needJ_le v
    have h2 := needElems_le w ws
    simp only [needElems, serElemsRest, List.length_cons, List.length_append]
    omega
termination_by sizeOf v + sizeOf vs + 1
decreasing_by
  all_goals subst_vars
  all_goals simp
  all_goals omega

/-- Member-list fuel is bounded by the serialized tail length. -/
theorem needMembers_le (v : Json) (kvs : List (String × Json)) :
    needMembers v kvs ≤ 2 + (serJson v).length + (serMembersRest kvs).length := by
  cases kvs with
  | nil =>
    have h1 := needJ_le v
    simp only [needMembers, serMembersRest, List.length_nil]
    omega
  | cons kv rest =>
    cases hkv : kv with
    | mk k2 w =>
    subst hkv
    have h1 := needJ_le v
    have h2 := needMembers_le w rest
    simp only [needMembers, serMembersRest, List.length_cons, List.length_append]
    omega
termination_by sizeOf v + sizeOf kvs + 1
decreasing_by
  all_goals subst_vars
  all_goals simp
  all_goals omega

end

/-- Full round trip through the JSON.parse model: parsing a serialized value
recovers it exactly. -/
theorem jsonParse_serJson (v : Json) : jsonParse (serJson v) = some v := by
  unfold jsonParse
  have h1 : parseVal ((serJson v).length + 1) (serJson v ++ []) = some (v, []) :=
    parse_ser v [] ((serJson v).length + 1) (by have := needJ_le v; omega) trivial
  rw [List.append_nil] at h1
  rw [h1]
  rfl

/-- Characters of a brace-free span satisfy both extraction predicates. -/
theorem braceFree_all (l : List Char) (h : braceFree l = true) :
    ∀ c ∈ l, (c != '\x7b') = true ∧ (c != '\x7d') = true := by
  intro c hc
  have h2 := List.all_eq_true.mp h c hc
  rw [Bool.and_eq_true] at h2
  exact h2

/-- Extraction of a braced span embedded in brace-free surrounding text
returns exactly that span. -/
theorem extractJson_wrapped (pre mid suf : List Char)
    (hpre : braceFree pre = true) (hsuf : braceFree suf = true) :
    extractJson ((pre ++ ('\x7b' :: (mid ++ ['\x7d']))) ++ suf) =
      some ('\x7b' :: (mid ++ ['\x7d'])) := by
  have hpre1 : ∀ c ∈ pre, (c != '\x7b') = true := fun c hc => (braceFree_all pre hpre c hc).1
  have hsuf2 : ∀ c ∈ suf.reverse, (c != '\x7d') = true :=
    fun c hc => (braceFree_all suf hsuf c (List.mem_reverse.mp hc)).2
  have hs : (pre ++ ('\x7b' :: (mid ++ ['\x7d']))) ++ suf =
      pre ++ ('\x7b' :: ((mid ++ ['\x7d']) ++ suf)) := by simp
  rw [hs]
  simp only [extractJson]
  rw [dropWhile_append_all _ pre _ hpre1, dropWhile_cons_false _ _ _ (by decide)]
  have hrev : ('\x7b' :: ((mid ++ ['\x7d']) ++ suf)).reverse =
      suf.reverse ++ '\x7d' :: ('\x7b' :: mid).reverse := by
    rw [show '\x7b' :: ((mid ++ ['\x7d']) ++ suf) = (('\x7b' :: mid) ++ ['\x7d']) ++ suf by
          simp]
    rw [List.reverse_append, List.reverse_append]
    simp
  rw [hrev, dropWhile_append_all _ suf.reverse _ hsuf2,
      dropWhile_cons_false _ _ _ (by decide)]
  rw [List.reverse_cons, List.reverse_reverse]
  rw [if_neg (by simp)]
  simp

/-- generateContent on a successful response whose extracted span parses:
the parsed value is returned as-is. -/
theorem generateContent_ok_parsed (fb : Option Json) (t : String) (u : List Char) (v : Json)
    (hx : extractJson t.data = some u) (hp : jsonParse u = some v) :
    generateContent fb (.ok t) = v := by
  simp only [generateContent, hx, hp]

/-- Claim C2: when the response text embeds exactly one well-formed JSON
object — the serialization of an object with distinct keys, surrounded by
brace-free text — generateContent returns that object unchanged: the full
serialize, embed, extract, parse round trip is the identity. -/
theorem claim_C2 (fb : Option Json) (kvs : List (String × Json)) (pre suf : List Char)
    (hpre : braceFree pre = true) (hsuf : braceFree suf = true)
    (hnd : (kvs.map Prod.fst).Nodup) :
    generateContent fb (.ok (String.mk ((pre ++ serJson (.obj kvs)) ++ suf))) = .obj kvs := by
  obtain ⟨mid, hmid⟩ : ∃ mid, serJson (.obj kvs) = '\x7b' :: (mid ++ ['\x7d']) := by
    cases kvs with
    | nil => exact ⟨[], rfl⟩
    | cons kv rest =>
      cases hkv : kv with
      | mk k v =>
      subst hkv
      refine ⟨serStr k ++ ':' :: serJson v ++ serMembersRest rest, ?_⟩
      simp [serJson]
  apply generateContent_ok_parsed fb _ (serJson (.obj kvs)) (.obj kvs) ?_
    (jsonParse_serJson (.obj kvs))
  show extractJson ((pre ++ serJson (.obj kvs)) ++ suf) = some (serJson (.obj kvs))
  rw [hmid]
  exact extractJson_wrapped pre mid suf hpre hsuf

/-- Witness for C2: a two-key object serialized into prose round-trips. -/
theorem claim_C2_witness :
    braceFree ("Sure, here is the JSON: ").data = true ∧
    braceFree (" Hope that helps!").data = true ∧
    ((([("status", Json.str "ok"), ("count", Json.num 3 0)] :
        List (String × Json)).map Prod.fst).Nodup) ∧
    generateContent none (.ok (String.mk
      ((("Sure, here is the JSON: ").data ++
        serJson (.obj [("status", .str "ok"), ("count", .num 3 0)])) ++
        (" Hope that helps!").data))) =
      .obj [("status", .str "ok"), ("count", .num 3 0)] := by
  refine ⟨by decide, by decide, by decide, ?_⟩
  exact claim_C2 none [("status", .str "ok"), ("count", .num 3 0)]
    ("Sure, here is the JSON: ").data (" Hope that helps!").data
    (by decide) (by decide) (by decide)
